import Mathlib

/-!
Verification of the UK housing agent-based model
(`Housing_Model_ABPandas.py`) against its natural-language specification.

The Python source mutates `props` dictionaries on `House`, `Household` and
`Realtor` agents held by a `HousingModel`.  Here the agent population is a
pair of total maps from numeric identifiers to records, and every operation
of the model is a state-passing function translated line by line from the
source.  Python floats are modelled as rationals; `random.*` draws and the
spatial collaborator's `distance` are oracle parameters; operations that can
raise (`list.index`, out-of-range indexing, `max([])`, a missing `inputs`
key) return `Option`/`Except`.
-/

/-- Tenure kind of a house or household (`my_type`: `"mortgage"` / `"rent"`). -/
inductive HType where
  | mortgage
  | rent
deriving DecidableEq, Repr, BEq

/-- Market kind of an active participant (`on_market_type`). -/
inductive MarketKind where
  | mortgage
  | buyToLet
  | rent
deriving DecidableEq, Repr, BEq

/-- Transaction kind stored in a realtor record (`record["transaction"]`). -/
inductive TKind where
  | sale
  | rent
  | unknown
deriving DecidableEq, Repr, BEq

/-- House identifiers. -/
abbrev HId := Nat

/-- Household identifiers. -/
abbrev PId := Nat

/-- Realtor identifiers. -/
abbrev RId := Nat

/-- The fields of a `House` agent's `props` dictionary used by the model
    logic (visualisation-only fields are omitted). -/
structure House where
  myType : Option HType := none
  localRealtors : List RId := []
  endOfLife : Int := 0
  forSale : Bool := true
  forRent : Bool := false
  dateForSale : Nat := 0
  dateForRent : Nat := 0
  myOwner : Option PId := none
  salePrice : ℚ := 0
  rentPrice : ℚ := 0
  offeredTo : Option PId := none
  offerDate : Nat := 0
  rentedTo : Option PId := none
  myOccupier : Option PId := none
deriving DecidableEq, Repr

/-- The fields of a `Household` agent's `props` dictionary used by the
    model logic.  `mortgage_duration` and `rate_duration` entries can be
    Python `None`, hence `Option Int`. -/
structure Household where
  myHouse : Option HId := none
  income : ℚ := 0
  incomeRent : List ℚ := []
  incomeSurplus : ℚ := 0
  deposit : List ℚ := []
  mortgage : List ℚ := []
  mortgageInitial : List ℚ := []
  mortgageDuration : List (Option Int) := []
  rate : List ℚ := []
  rateDuration : List (Option Int) := []
  capital : ℚ := 0
  repayment : List ℚ := []
  myRent : ℚ := 0
  homeless : Nat := 0
  myType : Option HType := none
  madeOfferOn : Option HId := none
  dateOfAcquire : Nat := 0
  myOwnership : List HId := []
  onMarket : Bool := false
  onMarketType : Option MarketKind := none
deriving DecidableEq, Repr

/-- One realtor transaction record (the dict appended by `record_price`). -/
structure TradeRec where
  house : HId
  date : Nat
  salePrice : ℚ
  rentPrice : ℚ
  transaction : TKind
deriving DecidableEq, Repr

/-- The fields of a `Realtor` agent's `props` dictionary used by the model
    logic. -/
structure Realtor where
  records : List TradeRec := []
  meanPrice : ℚ := 0
  meanRent : ℚ := 0
deriving DecidableEq, Repr

/-- The mutable model state: agent registries plus the tick counter.
    `houseIds` / `householdIds` list the identifiers of currently existing
    agents (Python iterates `self.houses` / `self.households`). -/
structure ModelState where
  houses : HId → House
  households : PId → Household
  realtors : RId → Realtor
  houseIds : List HId
  householdIds : List PId
  records : List TradeRec := []
  ticks : Nat := 0

/-- The numeric configuration consumed by the operations under study
    (`self.inputs` and the derived `self.interest_per_tick`), together with
    the external-collaborator `distance` oracle and the `random.randint`
    draws used by settlement. -/
structure Params where
  interestPerTick : ℚ := 3 / 400
  maxLTV : ℚ := 90
  ticksPerYear : Nat := 4
  affordability : ℚ := 33
  mortgageDuration : Nat := 25
  buyerSearchLength : Nat := 5
  locality : ℚ := 3
  savings : ℚ := 20
  savingsRent : ℚ := 5
  drawRateDurM : Int := 2
  drawRateDurBTL : Int := 1
  dist : HId → HId → ℚ := fun _ _ => 0

/-- Replace one house record in the registry. -/
def setHouse (s : ModelState) (h : HId) (v : House) : ModelState :=
  { s with houses := Function.update s.houses h v }

/-- Replace one household record in the registry. -/
def setHousehold (s : ModelState) (p : PId) (v : Household) : ModelState :=
  { s with households := Function.update s.households p v }

/-- Replace one realtor record in the registry. -/
def setRealtor (s : ModelState) (r : RId) (v : Realtor) : ModelState :=
  { s with realtors := Function.update s.realtors r v }

/-- Python `list.index(x)`: index of the first occurrence, or `none` where
    Python raises `ValueError`. -/
def pyIndex {α : Type} [DecidableEq α] : List α → α → Option Nat
  | [], _ => none
  | x :: xs, a => if x = a then some 0 else (pyIndex xs a).map (· + 1)

/-- Python `max(list)` over rationals: `none` on the empty list (where
    Python raises `ValueError`). -/
def pyMax : List ℚ → Option ℚ
  | [] => none
  | x :: xs =>
    match pyMax xs with
    | none => some x
    | some m => some (max x m)

/-- Insertion of one element into an ascending list (helper for the sort
    used by `statistics.median`). -/
def pyInsert (x : ℚ) : List ℚ → List ℚ
  | [] => [x]
  | y :: ys => if x ≤ y then x :: y :: ys else y :: pyInsert x ys

/-- Ascending insertion sort (the sort underlying `statistics.median`). -/
def pySort : List ℚ → List ℚ
  | [] => []
  | x :: xs => pyInsert x (pySort xs)

/-- `statistics.median`: middle element of the sorted list for odd length,
    mean of the two middle elements for even length (0 on the empty list,
    where Python raises). -/
def pyMedian (l : List ℚ) : ℚ :=
  let st := pySort l
  let n := st.length
  if n = 0 then 0
  else if n % 2 = 1 then (st.get? (n / 2)).getD 0
  else ((st.get? (n / 2 - 1)).getD 0 + (st.get? (n / 2)).getD 0) / 2

/-- Python `**` with an integer exponent over rationals. -/
def pyPow (b : ℚ) (e : Int) : ℚ :=
  if 0 ≤ e then b ^ e.toNat else (b ^ (-e).toNat)⁻¹

/-- `put_on_market` (source lines 1141-1158): list the house on the market
    that matches its tenure kind; a house with no tenure kind is untouched
    (neither Python branch fires). -/
def put_on_market (ticks : Nat) (h : House) : House :=
  match h.myType with
  | some .mortgage =>
      { h with forSale := true, forRent := false, offeredTo := none, dateForSale := ticks }
  | some .rent =>
      { h with forSale := false, forRent := true, offeredTo := none, dateForRent := ticks }
  | none => h

/-- `remove_from_market` (source lines 1160-1174): delist the house and
    clear any pending offer, including the offerer's back-reference. -/
def remove_from_market (s : ModelState) (hid : HId) : ModelState :=
  let h := s.houses hid
  let s :=
    match h.offeredTo with
    | some p => setHousehold s p { s.households p with madeOfferOn := none }
    | none => s
  setHouse s hid
    { s.houses hid with forSale := false, forRent := false, offeredTo := none,
                        rentedTo := none, offerDate := 0 }

/-- `enter_market` (source lines 1176-1186): flag a household as an active
    market participant of the given kind. -/
def enter_market (s : ModelState) (p : PId) (market : MarketKind) : ModelState :=
  setHousehold s p { s.households p with onMarket := true, onMarketType := some market }

/-- `leave_market` (source lines 1188-1197).  Note the source definition
    requires a second positional argument `market` that it never uses; both
    call sites in `trade_houses` pass only the household. -/
def leave_market (s : ModelState) (p : PId) (_market : Option MarketKind) : ModelState :=
  setHousehold s p { s.households p with onMarket := false, onMarketType := none }

/-- `follow_chain` (source lines 1380-1424), the chain-resolution check.
    The Python function is recursive over the mutable object graph and can
    recurse without bound; `fuel` bounds the recursion depth, `none`
    standing for a run that exhausts it (or for Python falling off the end
    of the function when the household has no market kind). -/
def follow_chain (s : ModelState) : Nat → PId → PId → Option Bool
  | 0, _, _ => none
  | fuel + 1, hh, first =>
    let p := s.households hh
    if p.madeOfferOn = none ∨ p.onMarket = false then some false
    else
      match p.madeOfferOn with
      | none => some false
      | some target =>
        match p.onMarketType with
        | some .mortgage | some .buyToLet =>
          match (s.houses target).myOwner with
          | none => some true
          | some seller =>
            if 1 < (s.households seller).myOwnership.length then some true
            else if seller = hh then some true
            else if seller = first then some true
            else follow_chain s fuel seller first
        | some .rent =>
          match (s.houses target).myOccupier with
          | none => some true
          | some occupier =>
            if occupier = first then some true
            else follow_chain s fuel occupier first
        | none => none

/-- The `"rent"` branch of `evict` (source lines 1123-1139): relist the
    tenancy, zero the landlord's rent income for that house (index lookup
    and list write can raise, hence `Option`) and clear the tenant's
    residence, rent and homelessness counter. -/
def evict_rent (s : ModelState) (a : PId) : Option ModelState :=
  match (s.households a).myHouse with
  | none => none
  | some h =>
    let s1 := setHouse s h (put_on_market s.ticks
      { s.houses h with myOccupier := none, rentedTo := none, offeredTo := none })
    let s2 :=
      match (s1.houses h).myOwner with
      | some ll =>
        match pyIndex (s1.households ll).myOwnership h with
        | none => none
        | some i =>
          if i < (s1.households ll).incomeRent.length then
            some (setHousehold s1 ll
              { s1.households ll with incomeRent := (s1.households ll).incomeRent.set i 0 })
          else none
      | none => some s1
    s2.map fun st =>
      setHousehold st a { st.households a with myHouse := none, myRent := 0, homeless := 0 }

/-- The final state produced by a successful `evict_rent` on tenant `t`
    living in house `h` owned by landlord `ll` at portfolio index `i`
    (used to state the specification of the eviction cascade). -/
def evict_rent_result (s : ModelState) (t : PId) (h : HId) (ll : PId) (i : Nat) : ModelState :=
  let s1 := setHouse s h (put_on_market s.ticks
    { s.houses h with myOccupier := none, rentedTo := none, offeredTo := none })
  let s2 := setHousehold s1 ll
    { s1.households ll with incomeRent := (s1.households ll).incomeRent.set i 0 }
  setHousehold s2 t { s2.households t with myHouse := none, myRent := 0, homeless := 0 }

/-- The loop of the `"mortgage"` branch of `evict` (source lines
    1087-1111), iterating over the evicted owner's portfolio and skipping
    the primary residence `mh`.  The recursive eviction of a displaced
    tenant is abstracted as `ev` (instantiated with `evict fuel`).  Note
    the source's two successive `if` statements: a house of rent type has
    its type flipped to mortgage by the first branch and is then also
    processed by the second. -/
def evict_loop_step (ev : ModelState → PId → Option ModelState) (s : ModelState)
    (h : HId) : Option ModelState := do
  let st ←
    if (s.houses h).myType = some HType.rent then do
      let st ←
        match (s.houses h).myOccupier with
        | some occ => do
            let st2 ← ev s occ
            pure (enter_market st2 occ MarketKind.rent)
        | none => pure s
      pure (setHouse st h (put_on_market st.ticks
        { st.houses h with myType := some HType.mortgage, myOccupier := none,
                           myOwner := none, rentedTo := none, offeredTo := none }))
    else pure s
  if (st.houses h).myType = some HType.mortgage then
    pure (setHouse st h (put_on_market st.ticks
      { st.houses h with myOccupier := none, myOwner := none,
                         rentedTo := none, offeredTo := none }))
  else pure st

def evict_loop_core (ev : ModelState → PId → Option ModelState) (mh : HId) :
    ModelState → List HId → Option ModelState
  | s, [] => some s
  | s, h :: rs =>
    if h = mh then evict_loop_core ev mh s rs
    else (evict_loop_step ev s h).bind (fun st => evict_loop_core ev mh st rs)

/-- The state produced by one successful cascade iteration on rental `h`
    with tenant `t`, landlord `a` and portfolio index `i`: the tenant is
    evicted and re-enters the rent market, then the house is flipped to
    mortgage type, cleared and relisted (twice, by the source's two
    consecutive `if` branches). -/
def cascade_step_result (s : ModelState) (t : PId) (h : HId) (a : PId) (i : Nat) :
    ModelState :=
  let s3 := evict_rent_result s t h a i
  let s4 := enter_market s3 t MarketKind.rent
  let s5 := setHouse s4 h (put_on_market s4.ticks
    { s4.houses h with myType := some HType.mortgage, myOccupier := none,
                       myOwner := none, rentedTo := none, offeredTo := none })
  setHouse s5 h (put_on_market s5.ticks
    { s5.houses h with myOccupier := none, myOwner := none,
                       rentedTo := none, offeredTo := none })

/-- `evict` (source lines 1071-1139).  For a mortgage-kind owner: relist
    the primary residence, run the portfolio cascade, then clear the
    owner's residence, portfolio and the `mortgage` / `repayment` /
    `income_rent` sequences (and only those), the rent and the
    homelessness counter.  For a rent-kind tenant: `evict_rent`.  A
    household with no tenure kind takes neither branch (Python returns
    `None` with no mutation).  `fuel` bounds the recursion depth of the
    tenant-eviction cascade. -/
def evict (fuel : Nat) (s : ModelState) (a : PId) : Option ModelState :=
  match fuel with
  | 0 => none
  | fuel + 1 =>
    match (s.households a).myType with
    | some HType.mortgage =>
      match (s.households a).myHouse with
      | none => none
      | some mh => do
        let s1 := setHouse s mh (put_on_market s.ticks
          { s.houses mh with myOccupier := none, myOwner := none, rentedTo := none })
        let s2 ← evict_loop_core (fun st p => evict fuel st p) mh s1
          (s1.households a).myOwnership
        pure (setHousehold s2 a
          { s2.households a with myHouse := none, myOwnership := [], mortgage := [],
                                 repayment := [], incomeRent := [], myRent := 0,
                                 homeless := 0 })
    | some HType.rent => evict_rent s a
    | none => some s

/-- Concrete state exercising the chain check: household 0 is a mortgage
    bidder offering on house 5, owned by household 1 who owns two
    houses. -/
def c1s : ModelState :=
  { houses := fun h => if h = 5 then { myOwner := some 1 } else {},
    households := fun p =>
      if p = 0 then { madeOfferOn := some 5, onMarket := true,
                      onMarketType := some MarketKind.mortgage }
      else if p = 1 then { myOwnership := [7, 8] } else {},
    realtors := fun _ => {},
    houseIds := [5, 7, 8],
    householdIds := [0, 1] }

/-- Concrete state for the eviction misalignment: household 0 is a
    mortgage-kind owner-occupier of house 0, with all seven per-house
    financial sequences aligned at length 1. -/
def c4s : ModelState :=
  { houses := fun h =>
      if h = 0 then { myType := some HType.mortgage, myOwner := some 0,
                      myOccupier := some 0, forSale := false } else {},
    households := fun p =>
      if p = 0 then { myType := some HType.mortgage, myHouse := some 0,
                      myOwnership := [0], mortgage := [80], mortgageInitial := [80],
                      mortgageDuration := [some 100], repayment := [2],
                      incomeRent := [0], rate := [3 / 400], rateDuration := [some 4],
                      homeless := 3 } else {},
    realtors := fun _ => {},
    houseIds := [0],
    householdIds := [0],
    ticks := 7 }

/-- `record_price` (source lines 1271-1305): append a transaction record
    to each of the house's local realtors and to the model-wide record
    list.  (The source reuses one dict object for all realtors; the values
    are identical, so value records are appended here.) -/
def record_price (s : ModelState) (hid : HId) (record_sale record_rent : Bool) : ModelState :=
  let house := s.houses hid
  let tr : TradeRec :=
    if record_sale = true ∧ record_rent = false then
      { house := hid, date := s.ticks, salePrice := house.salePrice, rentPrice := 0,
        transaction := TKind.sale }
    else if record_sale = false ∧ record_rent = true then
      { house := hid, date := s.ticks, salePrice := 0, rentPrice := house.rentPrice,
        transaction := TKind.rent }
    else
      { house := hid, date := s.ticks, salePrice := house.salePrice,
        rentPrice := house.rentPrice, transaction := TKind.unknown }
  let s := house.localRealtors.foldl (fun st r =>
    setRealtor st r { st.realtors r with records := (st.realtors r).records ++ [tr] }) s
  { s with records := s.records ++ [tr] }

/-- `evaluate` (source lines 1331-1378): one candidate value per local
    realtor — the median sale (resp. rent) price of the realtor's records
    of matching transaction kind whose recorded house lies within the
    configured locality distance of the evaluated house, falling back to
    the realtor's mean price (resp. mean rent) when no such record
    exists.  Returns `[]` for an unlisted house. -/
def evaluate (P : Params) (s : ModelState) (hid : HId) : List ℚ :=
  let house := s.houses hid
  if house.forSale = true then
    house.localRealtors.map (fun r =>
      let localSales := ((s.realtors r).records.filter (fun tr =>
        tr.transaction == TKind.sale && decide (P.dist hid tr.house ≤ P.locality))).map
          (fun tr => tr.salePrice)
      if localSales.length > 0 then pyMedian localSales else (s.realtors r).meanPrice)
  else if house.forRent = true then
    house.localRealtors.map (fun r =>
      let localRents := ((s.realtors r).records.filter (fun tr =>
        tr.transaction == TKind.rent && decide (P.dist hid tr.house ≤ P.locality))).map
          (fun tr => tr.rentPrice)
      if localRents.length > 0 then pyMedian localRents else (s.realtors r).meanRent)
  else []

/-- The price given to a house newly listed this tick (source lines
    679-682 of `trade_houses`): `max(self.evaluate(house))`, `none` where
    Python's `max` of an empty sequence raises. -/
def value_new_listing (P : Params) (s : ModelState) (hid : HId) : Option ℚ :=
  pyMax (evaluate P s hid)

/-- Stated from the specification's wording, for comparison with
    `evaluate`: a realtor's sale candidate is the median of the matching
    (sale) records whose recorded house lies within the locality distance
    of the listed house, falling back to the realtor's territory-wide mean
    price. -/
def realtor_candidate_sale (P : Params) (s : ModelState) (hid : HId) (r : RId) : ℚ :=
  let localRecs := (s.realtors r).records.filter (fun tr =>
    tr.transaction == TKind.sale && decide (P.dist hid tr.house ≤ P.locality))
  if localRecs = [] then (s.realtors r).meanPrice
  else pyMedian (localRecs.map (fun tr => tr.salePrice))

/-- Stated from the specification's wording: a realtor's rent candidate,
    the rent-side analogue of `realtor_candidate_sale`. -/
def realtor_candidate_rent (P : Params) (s : ModelState) (hid : HId) (r : RId) : ℚ :=
  let localRecs := (s.realtors r).records.filter (fun tr =>
    tr.transaction == TKind.rent && decide (P.dist hid tr.house ≤ P.locality))
  if localRecs = [] then (s.realtors r).meanRent
  else pyMedian (localRecs.map (fun tr => tr.rentPrice))

/-- `manage_surplus_seller` (source lines 1571-1590): credit the seller's
    capital with `sale_price - outstanding mortgage` (no clamp) and drop
    the sold house's entry from all seven parallel financial sequences.
    The portfolio index lookup can raise (`Option`); the source's `del`
    statements are in-range in every call. -/
def manage_surplus_seller (s : ModelState) (seller : PId) (sellerHouse : HId) :
    Option ModelState :=
  match pyIndex (s.households seller).myOwnership sellerHouse with
  | none => none
  | some i =>
    let p := s.households seller
    match p.mortgage.get? i with
    | none => none
    | some m =>
      let surplus := (s.houses sellerHouse).salePrice - m
      some (setHousehold s seller
        { p with capital := p.capital + surplus,
                 mortgage := p.mortgage.eraseIdx i,
                 mortgageInitial := p.mortgageInitial.eraseIdx i,
                 repayment := p.repayment.eraseIdx i,
                 incomeRent := p.incomeRent.eraseIdx i,
                 rate := p.rate.eraseIdx i,
                 rateDuration := p.rateDuration.eraseIdx i,
                 mortgageDuration := p.mortgageDuration.eraseIdx i })

/-- `manage_surplus_buyer` (source lines 1531-1569): charge the buyer the
    sale price — from capital if it suffices, otherwise zeroing capital and
    opening a mortgage for the shortfall with an annuity repayment; in both
    branches one entry is appended to every parallel financial sequence.
    The fixed-rate term draw (`random.randint`) is the oracle
    `drawRateDurM` / `drawRateDurBTL` from `Params`. -/
def manage_surplus_buyer (P : Params) (s : ModelState) (buyer : PId) : Option ModelState :=
  let b := s.households buyer
  match b.madeOfferOn with
  | none => none
  | some newH =>
    if (s.houses newH).salePrice > b.capital then
      let mortgageTemp := (s.houses newH).salePrice - b.capital
      let repaymentTemp := (mortgageTemp * P.interestPerTick) /
        (1 - pyPow (1 + P.interestPerTick) (-(P.mortgageDuration * P.ticksPerYear : Int)))
      let rd : Option Int :=
        if b.myOwnership.length = 0 then some P.drawRateDurM else some P.drawRateDurBTL
      some (setHousehold s buyer
        { b with capital := 0,
                 mortgage := b.mortgage ++ [mortgageTemp],
                 mortgageInitial := b.mortgageInitial ++ [mortgageTemp],
                 repayment := b.repayment ++ [repaymentTemp],
                 incomeRent := b.incomeRent ++ [0],
                 rate := b.rate ++ [P.interestPerTick],
                 rateDuration := b.rateDuration ++ [rd],
                 mortgageDuration := b.mortgageDuration ++
                   [some (P.mortgageDuration * P.ticksPerYear : Int)] })
    else
      some (setHousehold s buyer
        { b with capital := b.capital - (s.houses newH).salePrice,
                 mortgage := b.mortgage ++ [0],
                 mortgageInitial := b.mortgageInitial ++ [0],
                 repayment := b.repayment ++ [0],
                 incomeRent := b.incomeRent ++ [0],
                 rate := b.rate ++ [0],
                 rateDuration := b.rateDuration ++ [none],
                 mortgageDuration := b.mortgageDuration ++ [none] })

/-- `manage_ownership_buyer` (source lines 1426-1483).  Mortgage buyers
    vacate and relist a rented prior residence, take over the new house
    and replace their portfolio by `[new_house]`; buy-to-let buyers flip
    the new house to a listed rental priced at the larger of its valuation
    and their newest repayment, and append it to their portfolio.  The
    source reads `on_market_type` for the second branch after the first
    may have cleared it. -/
def manage_ownership_buyer (P : Params) (s : ModelState) (buyer : PId) : Option ModelState :=
  let currentHouse := (s.households buyer).myHouse
  match (s.households buyer).madeOfferOn with
  | none => none
  | some newH =>
    let s := record_price s newH true false
    let s :=
      if (s.households buyer).onMarketType = some MarketKind.mortgage then
        let s :=
          match currentHouse with
          | some ch =>
            if (s.houses ch).myType = some HType.rent then
              setHouse s ch (put_on_market s.ticks
                { s.houses ch with myOccupier := none, rentedTo := none, offeredTo := none })
            else s
          | none => s
        let s := setHouse s newH
          { s.houses newH with myType := some HType.mortgage, myOwner := some buyer,
                               myOccupier := some buyer, rentedTo := none, offeredTo := none,
                               forSale := false, forRent := false }
        setHousehold s buyer
          { s.households buyer with homeless := 0, myType := some HType.mortgage,
                                    dateOfAcquire := s.ticks, myHouse := some newH,
                                    myOwnership := [newH], madeOfferOn := none,
                                    onMarket := false, onMarketType := none }
      else s
    if (s.households buyer).onMarketType = some MarketKind.buyToLet then
      let s := setHouse s newH
        { s.houses newH with myType := some HType.rent, myOwner := some buyer,
                             myOccupier := none, offeredTo := none, rentedTo := none }
      let s := setHouse s newH (put_on_market s.ticks (s.houses newH))
      match pyMax (evaluate P s newH), (s.households buyer).repayment.getLast? with
      | some ev, some rp =>
        let s := setHouse s newH { s.houses newH with rentPrice := max ev rp }
        some (setHousehold s buyer
          { s.households buyer with
              myOwnership := (s.households buyer).myOwnership ++ [newH],
              madeOfferOn := none, onMarket := false, onMarketType := none })
      | _, _ => none
    else some s

/-- `manage_ownership_seller` (source lines 1485-1494): remove the sold
    house from the seller's portfolio.  (Python `list.remove` raises on a
    missing element; every call passes a present one.) -/
def manage_ownership_seller (s : ModelState) (seller : PId) (sellerHouse : HId) : ModelState :=
  setHousehold s seller
    { s.households seller with
        myOwnership := (s.households seller).myOwnership.erase sellerHouse }

/-- `manage_surplus_tenant` (source lines 1592-1601): the incoming
    tenant's rent becomes the listed rent of the offered house. -/
def manage_surplus_tenant (s : ModelState) (tenant : PId) : Option ModelState :=
  match (s.households tenant).madeOfferOn with
  | none => none
  | some newH =>
    some (setHousehold s tenant
      { s.households tenant with myRent := (s.houses newH).rentPrice })

/-- `manage_surplus_landlord` (source lines 1603-1613): record the rented
    house's listed rent as the landlord's rent income at that portfolio
    index. -/
def manage_surplus_landlord (s : ModelState) (landlord : PId) (landlordHouse : HId) :
    Option ModelState :=
  match pyIndex (s.households landlord).myOwnership landlordHouse with
  | none => none
  | some i =>
    if i < (s.households landlord).incomeRent.length then
      some (setHousehold s landlord
        { s.households landlord with
            incomeRent := (s.households landlord).incomeRent.set i
              ((s.houses landlordHouse).rentPrice) })
    else none

/-- `manage_ownership_tenant` (source lines 1496-1529): move the tenant
    into the offered house, unlink any previous occupier, delist the new
    house (its `offered_to` field is not touched by the source) and relist
    the tenant's old residence. -/
def manage_ownership_tenant (s : ModelState) (tenant : PId) : Option ModelState :=
  match (s.households tenant).madeOfferOn with
  | none => none
  | some newH =>
    let oldH := (s.households tenant).myHouse
    let s := record_price s newH false true
    let s := setHousehold s tenant
      { s.households tenant with homeless := 0, myType := some HType.rent,
                                 myHouse := some newH, myRent := (s.houses newH).rentPrice,
                                 myOwnership := [], madeOfferOn := none,
                                 onMarket := false, onMarketType := none }
    let s :=
      match (s.houses newH).myOccupier with
      | some occ => setHousehold s occ { s.households occ with myHouse := none }
      | none => s
    let s := setHouse s newH
      { s.houses newH with myOccupier := some tenant, rentedTo := some tenant,
                           forSale := false, forRent := false }
    match oldH with
    | some oh => some (setHouse s oh (put_on_market s.ticks
        { s.houses oh with myOccupier := none, rentedTo := none }))
    | none => some s

/-- `remove_offers` (source lines 876-883): for every house still listed,
    clear the offerer's back-reference and the house's pending offer.
    Unlisted houses are not visited. -/
def remove_offers (s : ModelState) : ModelState :=
  let housesOnMarket := s.houseIds.filter (fun h =>
    (s.houses h).forSale == true || (s.houses h).forRent == true)
  housesOnMarket.foldl (fun st h =>
    let st :=
      match (st.houses h).offeredTo with
      | some p => setHousehold st p { st.households p with madeOfferOn := none }
      | none => st
    setHouse st h { st.houses h with offeredTo := none, offerDate := 0 }) s

/-- One iteration of the settlement loop of `trade_houses` (source lines
    844-865): if the chain check reports `True` for the bidder, perform
    the mortgage/buy-to-let or rent transaction.  `none` models a Python
    exception (including the unbounded chain recursion, and the rent
    settlement of an unowned house, where `manage_surplus_landlord`
    dereferences `None`).  A chain reporting `False` leaves the state
    unchanged. -/
def settle_one (P : Params) (fuel : Nat) (s : ModelState) (hh : PId) : Option ModelState :=
  match follow_chain s fuel hh hh with
  | none => none
  | some false => some s
  | some true =>
    match (s.households hh).madeOfferOn with
    | none => none
    | some newH => do
      let s1 ←
        if (s.households hh).onMarketType = some MarketKind.mortgage ∨
           (s.households hh).onMarketType = some MarketKind.buyToLet then do
          let seller := (s.houses newH).myOwner
          let s1 ←
            match seller with
            | some sl => manage_surplus_seller s sl newH
            | none => pure s
          let s2 ← manage_surplus_buyer P s1 hh
          let s3 ← manage_ownership_buyer P s2 hh
          match seller with
          | some sl => pure (manage_ownership_seller s3 sl newH)
          | none => pure s3
        else pure s
      if (s1.households hh).onMarketType = some MarketKind.rent then do
        match (s1.houses newH).myOwner with
        | none => none
        | some ll => do
          let s2 ← manage_surplus_landlord s1 ll newH
          let s3 ← manage_surplus_tenant s2 hh
          manage_ownership_tenant s3 hh
      else pure s1

/-- The buyers with a pending offer, in registry order (source lines
    696-841: the market participants filtered to those whose
    `made_offer_on` is set). -/
def offering_buyers (s : ModelState) : List PId :=
  (s.householdIds.filter (fun p => (s.households p).onMarket == true)).filter
    (fun p => !((s.households p).madeOfferOn == none))

/-- The settlement phase of one tick: `settle_one` folded over the
    snapshot of offering buyers taken before the loop (source lines
    838-865). -/
def settle_phase (P : Params) (fuel : Nat) (s : ModelState) : Option ModelState :=
  (offering_buyers s).foldlM (fun st hh => settle_one P fuel st hh) s

/-- The model's default `inputs` dictionary (source lines 118-161), as a
    key-to-number map; the boolean `stamp_duty` entry is omitted.  Key
    lookups return `Option` so that a reference to an absent key (Python
    `KeyError`) is observable. -/
def inputs_default : List (String × ℚ) :=
  [("interest_rate", 3), ("max_LTV", 90), ("ticks_per_year", 4), ("density", 70),
   ("owned_rent_percentage", 50), ("initial_occupancy", 95),
   ("fully_paid_mortgage_owners", 0), ("investors", 50), ("upgrade_tenancy", 50),
   ("house_mean_lifetime", 100), ("locality", 3), ("affordability", 33),
   ("mortgage_duration", 25), ("mean_income", 30000), ("capital_mortgage", 100),
   ("capital_rent", 50), ("wage_rise", 0), ("savings", 20), ("savings_rent", 5),
   ("price_difference", 5000), ("rent_difference", 500), ("clustering_repeat", 3),
   ("max_homeless_period", 5), ("buyer_search_length", 5),
   ("house_construction_rate", 36 / 100), ("entry_rate", 4), ("exit_rate", 2),
   ("n_realtors", 6), ("realtor_territory", 16), ("realtor_optimism", 3),
   ("realtor_memory", 10), ("min_price_percent", 20), ("price_drop_rate", 3),
   ("rent_drop_rate", 3), ("savings_to_price_threshold", 2),
   ("eviction_threshold_mortgage", 3), ("eviction_threshold_rent", 1),
   ("min_rate_duration_M", 2), ("max_rate_duration_M", 5),
   ("min_rate_duration_BTL", 1), ("max_rate_duration_BTL", 1)]

/-- Look one key up in the default inputs (`self.inputs[...]`). -/
def get_input (k : String) : Option ℚ :=
  inputs_default.lookup k

/-- The per-house body of the owner update loop in `update_owners`
    (source lines 1020-1042) for portfolio position `i`: subtract the
    repayment from the balance, clamping a non-positive balance (and its
    repayment) to zero; accrue savings into capital; and, when the
    fixed-rate term has hit zero while a positive repayment remains,
    recompute the repayment from the initial mortgage amount if the
    prevailing rate changed, re-lock the rate and redraw the term (oracle
    draws `drawM` / `drawBTL`).  The source's repayment recomputation
    references the input key `"ticke_per_year"`, which `inputs_default`
    does not contain, so that path yields `none` (Python `KeyError`).
    List reads out of range (Python `IndexError`) also yield `none`. -/
def update_owner_house (interest_per_tick : ℚ) (drawM drawBTL : Int) (i : Nat)
    (o : Household) : Option Household := do
  let m ← o.mortgage.get? i
  let r ← o.repayment.get? i
  let o := { o with mortgage := o.mortgage.set i (m - r) }
  let o := if m - r ≤ 0 then
      { o with mortgage := o.mortgage.set i 0, repayment := o.repayment.set i 0 }
    else o
  let savings ← get_input "savings"
  let o := { o with capital := o.capital + o.incomeSurplus * (savings / 100) }
  let rd ← o.rateDuration.get? i
  let r2 ← o.repayment.get? i
  if rd = some 0 ∧ r2 > 0 then do
    let rt ← o.rate.get? i
    let o ←
      if rt ≠ interest_per_tick then do
        let totalMortgage ← o.mortgageInitial.get? i
        let md ← get_input "mortgage_duration"
        let tpy ← get_input "ticke_per_year"
        let newRepayment := (totalMortgage * interest_per_tick) /
          (1 - pyPow (1 + interest_per_tick) (-(md * tpy).num))
        pure { o with repayment := o.repayment.set i newRepayment }
      else pure o
    let o := { o with rate := o.rate.set i interest_per_tick }
    let o :=
      if i = 0 then { o with rateDuration := o.rateDuration.set i (some drawM) }
      else { o with rateDuration := o.rateDuration.set i (some drawBTL) }
    let rd2 ← o.rateDuration.get? i
    let o :=
      match rd2 with
      | some v => { o with rateDuration := o.rateDuration.set i (some (v - 1)) }
      | none => o
    let md2 ← o.mortgageDuration.get? i
    let o :=
      match md2 with
      | some v => { o with mortgageDuration := o.mortgageDuration.set i (some (v - 1)) }
      | none => o
    pure o
  else pure o

/-- The upper bound of a mortgage bidder's affordability window (source
    lines 706-725): serviceable-mortgage budget plus deposit (capital,
    plus net equity of a currently-listed owned residence), additionally
    capped by the loan-to-value headroom when `max_LTV < 100`.  Errors
    model the Python exceptions of `list.index` and list indexing. -/
def upperbound_mortgage (P : Params) (s : ModelState) (buyer : PId) : Except String ℚ :=
  let b := s.households buyer
  let newRepayment := (b.income * P.affordability) / ((P.ticksPerYear : ℚ) * 100)
  let newMortgage := (1 - pyPow (1 + P.interestPerTick)
    (-(P.mortgageDuration * P.ticksPerYear : Int))) * (newRepayment / P.interestPerTick)
  let budget := newMortgage
  let deposit := b.capital
  let finish : ℚ → ℚ := fun dep =>
    if P.maxLTV < 100 then min (budget + dep) (dep / (1 - P.maxLTV / 100)) else budget + dep
  match b.myHouse with
  | some ch =>
    if 0 < b.myOwnership.length then
      match pyIndex b.myOwnership ch with
      | none => Except.error "ValueError: house not in ownership list"
      | some i =>
        if (s.houses ch).forSale = true then
          match b.mortgage.get? i with
          | none => Except.error "IndexError: mortgage list"
          | some m => Except.ok (finish (deposit + ((s.houses ch).salePrice - m)))
        else Except.ok (finish deposit)
    else Except.ok (finish deposit)
  | none => Except.ok (finish deposit)

/-- The upper bound of a buy-to-let bidder's affordability window (source
    lines 761-774): as for a mortgage bidder but with no owned-residence
    equity term. -/
def upperbound_btl (P : Params) (s : ModelState) (buyer : PId) : ℚ :=
  let b := s.households buyer
  let newRepayment := (b.income * P.affordability) / ((P.ticksPerYear : ℚ) * 100)
  let newMortgage := (1 - pyPow (1 + P.interestPerTick)
    (-(P.mortgageDuration * P.ticksPerYear : Int))) * (newRepayment / P.interestPerTick)
  let budget := newMortgage
  let deposit := b.capital
  if P.maxLTV < 100 then min (budget + deposit) (deposit / (1 - P.maxLTV / 100))
  else budget + deposit

/-- The candidate pool of a mortgage or buy-to-let bidder (source lines
    737-744 and 784-791): currently-unoffered for-sale listings priced in
    `(lb, ub]`, excluding the bidder's current residence and every house
    in its portfolio. -/
def interesting_houses_M (s : ModelState) (housesForSale : List HId) (ub lb : ℚ)
    (currentHouse : Option HId) (currentOwnership : List HId) : List HId :=
  housesForSale.filter (fun h =>
    ((s.houses h).offeredTo == none) &&
    decide ((s.houses h).salePrice ≤ ub) &&
    decide (lb < (s.houses h).salePrice) &&
    !(some h == currentHouse) &&
    !(currentOwnership.contains h))

/-- The candidate pool of a rent bidder (source lines 816-822):
    currently-unoffered for-rent listings priced in `(lb, ub]`, excluding
    only the bidder's current residence — the source has no portfolio
    exclusion in this branch. -/
def interesting_houses_R (s : ModelState) (housesForRent : List HId) (ub lb : ℚ)
    (currentHouse : Option HId) : List HId :=
  housesForRent.filter (fun h =>
    ((s.houses h).offeredTo == none) &&
    decide ((s.houses h).rentPrice ≤ ub) &&
    decide (lb < (s.houses h).rentPrice) &&
    !(some h == currentHouse))

/-- The offer-recording tail shared by the three `make offer` branches
    (source lines 750-757, 797-804 and 828-835): pick the highest-priced
    pool member (first occurrence of the maximal price) and record the
    pending offer on the house plus the reciprocal reference on the
    bidder.  An empty pool records nothing. -/
def select_and_offer (price : HId → ℚ) (s : ModelState) (buyer : PId)
    (pool : List HId) : ModelState :=
  if pool.length > 0 then
    let prices := pool.map price
    match pyMax prices with
    | none => s
    | some m =>
      match pyIndex prices m with
      | none => s
      | some i =>
        match pool.get? i with
        | none => s
        | some sel =>
          let s := setHouse s sel
            { s.houses sel with offeredTo := some buyer, offerDate := s.ticks }
          setHousehold s buyer { s.households buyer with madeOfferOn := some sel }
  else s

/-- The mortgage-bidder branch of the offer loop (source lines 703-757).
    On a non-positive upper bound: a bidder with a current residence hits
    the source's `leave_market(buyer)` call, which omits the required
    `market` argument of `leave_market(self, household, market)` and so
    raises `TypeError`; a bidder without one silently submits no offer and
    stays on the market.  `sample` is the `random.sample` oracle applied
    when the pool exceeds the search length. -/
def make_offer_mortgage (P : Params) (sample : List HId → List HId)
    (housesForSale : List HId) (s : ModelState) (buyer : PId) : Except String ModelState :=
  match upperbound_mortgage P s buyer with
  | Except.error e => Except.error e
  | Except.ok ub =>
    if ub ≤ 0 then
      match (s.households buyer).myHouse with
      | some _ =>
        Except.error "TypeError: leave_market missing 1 required positional argument"
      | none => Except.ok s
    else
      let lb := ub * (7 / 10)
      let pool := interesting_houses_M s housesForSale ub lb
        (s.households buyer).myHouse (s.households buyer).myOwnership
      let pool := if pool.length > P.buyerSearchLength then sample pool else pool
      Except.ok (select_and_offer (fun h => (s.houses h).salePrice) s buyer pool)

/-- The buy-to-let branch of the offer loop (source lines 760-804): as
    the mortgage branch but with no equity term, and the mis-arity
    `leave_market(buyer)` call is reached whenever the upper bound is
    non-positive. -/
def make_offer_btl (P : Params) (sample : List HId → List HId)
    (housesForSale : List HId) (s : ModelState) (buyer : PId) : Except String ModelState :=
  let ub := upperbound_btl P s buyer
  if ub ≤ 0 then
    Except.error "TypeError: leave_market missing 1 required positional argument"
  else
    let lb := ub * (7 / 10)
    let pool := interesting_houses_M s housesForSale ub lb
      (s.households buyer).myHouse (s.households buyer).myOwnership
    let pool := if pool.length > P.buyerSearchLength then sample pool else pool
    Except.ok (select_and_offer (fun h => (s.houses h).salePrice) s buyer pool)

/-- The rent branch of the offer loop (source lines 807-835): the budget
    is the affordability share of income, with no leverage and no
    non-positive-bound exit check. -/
def make_offer_rent (P : Params) (sample : List HId → List HId)
    (housesForRent : List HId) (s : ModelState) (buyer : PId) : ModelState :=
  let b := s.households buyer
  let ub := (b.income * P.affordability) / ((P.ticksPerYear : ℚ) * 100)
  let lb := ub * (7 / 10)
  let pool := interesting_houses_R s housesForRent ub lb b.myHouse
  let pool := if pool.length > P.buyerSearchLength then sample pool else pool
  select_and_offer (fun h => (s.houses h).rentPrice) s buyer pool

/-- Concrete three-household rotating chain: households 0, 1, 2 each own
    exactly the house they occupy (houses 0, 1, 2), all three houses are
    listed, and the pending offers rotate — 0 offers on house 1, 1 on
    house 2, 2 on house 0.  Every household can pay in cash. -/
def c2s : ModelState :=
  { houses := fun h =>
      if h = 0 then
        { myType := some HType.mortgage, forSale := true, salePrice := 100,
          myOwner := some 0, myOccupier := some 0, offeredTo := some 2,
          localRealtors := [0], dateForSale := 5 }
      else if h = 1 then
        { myType := some HType.mortgage, forSale := true, salePrice := 100,
          myOwner := some 1, myOccupier := some 1, offeredTo := some 0,
          localRealtors := [0], dateForSale := 5 }
      else if h = 2 then
        { myType := some HType.mortgage, forSale := true, salePrice := 100,
          myOwner := some 2, myOccupier := some 2, offeredTo := some 1,
          localRealtors := [0], dateForSale := 5 }
      else {},
    households := fun p =>
      if p = 0 then
        { myType := some HType.mortgage, myHouse := some 0, myOwnership := [0],
          capital := 200, mortgage := [50], mortgageInitial := [50],
          mortgageDuration := [some 100], repayment := [1], incomeRent := [0],
          rate := [1 / 100], rateDuration := [some 4], onMarket := true,
          onMarketType := some MarketKind.mortgage, madeOfferOn := some 1 }
      else if p = 1 then
        { myType := some HType.mortgage, myHouse := some 1, myOwnership := [1],
          capital := 200, mortgage := [50], mortgageInitial := [50],
          mortgageDuration := [some 100], repayment := [1], incomeRent := [0],
          rate := [1 / 100], rateDuration := [some 4], onMarket := true,
          onMarketType := some MarketKind.mortgage, madeOfferOn := some 2 }
      else if p = 2 then
        { myType := some HType.mortgage, myHouse := some 2, myOwnership := [2],
          capital := 200, mortgage := [50], mortgageInitial := [50],
          mortgageDuration := [some 100], repayment := [1], incomeRent := [0],
          rate := [1 / 100], rateDuration := [some 4], onMarket := true,
          onMarketType := some MarketKind.mortgage, madeOfferOn := some 0 }
      else {},
    realtors := fun _ => {},
    houseIds := [0, 1, 2],
    householdIds := [0, 1, 2],
    ticks := 5 }

/-- Concrete eviction-cascade instance: household 0 is a mortgage-kind
    owner-occupier of house 0 and landlord of the occupied rental house 1,
    whose tenant is household 1. -/
def c3ws : ModelState :=
  { houses := fun h =>
      if h = 0 then
        { myType := some HType.mortgage, myOwner := some 0, myOccupier := some 0,
          forSale := false }
      else if h = 1 then
        { myType := some HType.rent, myOwner := some 0, myOccupier := some 1,
          forSale := false, forRent := false }
      else {},
    households := fun p =>
      if p = 0 then
        { myType := some HType.mortgage, myHouse := some 0, myOwnership := [0, 1],
          incomeRent := [0, 7], mortgage := [60, 40], repayment := [2, 1],
          homeless := 4 }
      else if p = 1 then
        { myType := some HType.rent, myHouse := some 1, myRent := 7, homeless := 2 }
      else {},
    realtors := fun _ => {},
    houseIds := [0, 1],
    householdIds := [0, 1],
    ticks := 9 }

/-- Concrete rent settlement: tenant household 1 has a pending offer on
    the listed rental house 0, owned by landlord household 2 and currently
    unoccupied. -/
def c5s : ModelState :=
  { houses := fun h =>
      if h = 0 then
        { myType := some HType.rent, forSale := false, forRent := true, rentPrice := 10,
          offeredTo := some 1, myOwner := some 2, myOccupier := none,
          localRealtors := [0], dateForRent := 4 }
      else {},
    households := fun p =>
      if p = 1 then
        { myType := some HType.rent, myHouse := none, madeOfferOn := some 0,
          onMarket := true, onMarketType := some MarketKind.rent }
      else if p = 2 then
        { myType := some HType.mortgage, myOwnership := [0], incomeRent := [0],
          mortgage := [50], repayment := [1] }
      else {},
    realtors := fun _ => {},
    houseIds := [0],
    householdIds := [0, 1, 2],
    ticks := 4 }

/-- Concrete owner record whose first house has a fixed-rate term at zero,
    a positive repayment and a locked rate different from the prevailing
    per-tick rate, so the interest-rate reset branch fires. -/
def c6o : Household :=
  { mortgage := [100], repayment := [5], mortgageInitial := [100],
    mortgageDuration := [some 50], rate := [1 / 100], rateDuration := [some 0],
    incomeRent := [0], capital := 0, incomeSurplus := 0 }

/-- Parameters with one-period mortgages (so annuity exponents stay
    small) and the default 90% loan-to-value cap. -/
def c7P : Params :=
  { interestPerTick := 1 / 10, ticksPerYear := 1, mortgageDuration := 1 }

/-- Concrete bidders with non-positive affordability bounds: household 0
    is a houseless mortgage bidder with negative capital, household 1 a
    buy-to-let bidder with negative capital, household 2 a mortgage bidder
    with negative capital that owns and occupies house 5. -/
def c7s : ModelState :=
  { houses := fun h =>
      if h = 5 then
        { myType := some HType.mortgage, forSale := true, salePrice := 30,
          myOwner := some 2, myOccupier := some 2 }
      else {},
    households := fun p =>
      if p = 0 then
        { income := 0, capital := -10, myHouse := none, onMarket := true,
          onMarketType := some MarketKind.mortgage }
      else if p = 1 then
        { income := 0, capital := -10, myHouse := some 5, onMarket := true,
          onMarketType := some MarketKind.buyToLet }
      else if p = 2 then
        { income := 0, capital := -10, myHouse := some 5, myOwnership := [5],
          mortgage := [40], onMarket := true,
          onMarketType := some MarketKind.mortgage }
      else {},
    realtors := fun _ => {},
    houseIds := [5],
    householdIds := [0, 1, 2],
    ticks := 3 }

/-- Concrete seller in negative equity: household 1 owns house 4 with an
    outstanding mortgage of 100 while the house sells for 50, and has no
    capital. -/
def c8s : ModelState :=
  { houses := fun h => if h = 4 then { salePrice := 50 } else {},
    households := fun p =>
      if p = 1 then
        { myOwnership := [4], mortgage := [100], mortgageInitial := [100],
          repayment := [0], incomeRent := [0], rate := [0], rateDuration := [none],
          mortgageDuration := [none], capital := 0 }
      else {},
    realtors := fun _ => {},
    houseIds := [4],
    householdIds := [1] }

/-- Concrete owner whose repayment (5) exceeds the remaining balance (3),
    so the per-tick update clamps the balance. -/
def c8o : Household :=
  { mortgage := [3], repayment := [5], mortgageInitial := [3],
    mortgageDuration := [some 10], rate := [1 / 100], rateDuration := [some 9],
    incomeRent := [0], capital := 0, incomeSurplus := 0 }

/-- The record `update_owner_house` produces from `c8o`: the balance and
    repayment both clamp to zero. -/
def c8o2 : Household :=
  { c8o with mortgage := [0], repayment := [0] }

/-- Parameters for the valuation example: locality distance 3, with house
    2 near the listed house 0 and house 1 far from it. -/
def c9P : Params :=
  { locality := 3, dist := fun _ b => if b = 2 then 1 else 10 }

/-- Concrete valuation instance: house 0 is newly listed for sale with
    one local realtor whose records hold a far sale (house 1, price 100)
    and a near sale (house 2, price 200). -/
def c9s : ModelState :=
  { houses := fun h =>
      if h = 0 then
        { myType := some HType.mortgage, forSale := true, localRealtors := [0],
          dateForSale := 2 }
      else {},
    households := fun _ => {},
    realtors := fun r =>
      if r = 0 then
        { records := [
            { house := 1, date := 0, salePrice := 100, rentPrice := 0,
              transaction := TKind.sale },
            { house := 2, date := 0, salePrice := 200, rentPrice := 0,
              transaction := TKind.sale }],
          meanPrice := 150, meanRent := 40 }
      else {},
    houseIds := [0],
    householdIds := [],
    ticks := 2 }

/-- Parameters for the boundary-price example (small annuity exponent,
    default 90% loan-to-value cap). -/
def c10P : Params :=
  { interestPerTick := 1 / 10, ticksPerYear := 1, mortgageDuration := 1 }

/-- Concrete boundary-price instance: houseless mortgage bidder 0 with
    capital 100 (upper bound 100, lower bound 70) and a single listed
    house 3 priced exactly at the lower bound 70. -/
def c10s : ModelState :=
  { houses := fun h =>
      if h = 3 then
        { myType := some HType.mortgage, forSale := true, salePrice := 70,
          offeredTo := none }
      else {},
    households := fun p =>
      if p = 0 then
        { income := 0, capital := 100, myHouse := none, myOwnership := [],
          onMarket := true, onMarketType := some MarketKind.mortgage }
      else {},
    realtors := fun _ => {},
    houseIds := [3],
    householdIds := [0],
    ticks := 6 }

@[simp] theorem setHouse_households (s : ModelState) (h : HId) (v : House) :
    (setHouse s h v).households = s.households := rfl

@[simp] theorem setHouse_realtors (s : ModelState) (h : HId) (v : House) :
    (setHouse s h v).realtors = s.realtors := rfl

@[simp] theorem setHouse_ticks (s : ModelState) (h : HId) (v : House) :
    (setHouse s h v).ticks = s.ticks := rfl

@[simp] theorem setHouse_houses_self (s : ModelState) (h : HId) (v : House) :
    (setHouse s h v).houses h = v := by
  simp [setHouse]

theorem setHouse_houses_ne (s : ModelState) (h : HId) (v : House) {h2 : HId}
    (hne : h2 ≠ h) : (setHouse s h v).houses h2 = s.houses h2 := by
  simp [setHouse, Function.update_noteq hne]

@[simp] theorem setHousehold_houses (s : ModelState) (p : PId) (v : Household) :
    (setHousehold s p v).houses = s.houses := rfl

@[simp] theorem setHousehold_realtors (s : ModelState) (p : PId) (v : Household) :
    (setHousehold s p v).realtors = s.realtors := rfl

@[simp] theorem setHousehold_ticks (s : ModelState) (p : PId) (v : Household) :
    (setHousehold s p v).ticks = s.ticks := rfl

@[simp] theorem setHousehold_households_self (s : ModelState) (p : PId) (v : Household) :
    (setHousehold s p v).households p = v := by
  simp [setHousehold]

theorem setHousehold_households_ne (s : ModelState) (p : PId) (v : Household) {p2 : PId}
    (hne : p2 ≠ p) : (setHousehold s p v).households p2 = s.households p2 := by
  simp [setHousehold, Function.update_noteq hne]

theorem put_on_market_of_mortgage (t : Nat) {hr : House}
    (hty : hr.myType = some HType.mortgage) :
    put_on_market t hr =
      { hr with forSale := true, forRent := false, offeredTo := none, dateForSale := t } := by
  unfold put_on_market
  rw [hty]

theorem put_on_market_of_rent (t : Nat) {hr : House} (hty : hr.myType = some HType.rent) :
    put_on_market t hr =
      { hr with forSale := false, forRent := true, offeredTo := none, dateForRent := t } := by
  unfold put_on_market
  rw [hty]

@[simp] theorem put_on_market_myOwner (t : Nat) (hr : House) :
    (put_on_market t hr).myOwner = hr.myOwner := by
  cases hty : hr.myType with
  | none => simp [put_on_market, hty]
  | some ty => cases ty <;> simp [put_on_market, hty]

@[simp] theorem put_on_market_myType (t : Nat) (hr : House) :
    (put_on_market t hr).myType = hr.myType := by
  cases hty : hr.myType with
  | none => simp [put_on_market, hty]
  | some ty => cases ty <;> simp [put_on_market, hty]

@[simp] theorem put_on_market_myOccupier (t : Nat) (hr : House) :
    (put_on_market t hr).myOccupier = hr.myOccupier := by
  cases hty : hr.myType with
  | none => simp [put_on_market, hty]
  | some ty => cases ty <;> simp [put_on_market, hty]

theorem pyIndex_lt {α : Type} [DecidableEq α] :
    ∀ {l : List α} {a : α} {i : Nat}, pyIndex l a = some i → i < l.length := by
  intro l
  induction l with
  | nil => intro a i h; simp [pyIndex] at h
  | cons x xs ih =>
    intro a i h
    by_cases hx : x = a
    · simp [pyIndex, hx] at h
      subst h
      simp
    · simp only [pyIndex, if_neg hx, Option.map_eq_some'] at h
      obtain ⟨j, hj, rfl⟩ := h
      have := ih hj
      simp only [List.length_cons]
      omega

theorem pyIndex_mem {α : Type} [DecidableEq α] {l : List α} {a : α} (h : a ∈ l) :
    ∃ i, pyIndex l a = some i := by
  induction l with
  | nil => simp at h
  | cons x xs ih =>
    by_cases hx : x = a
    · exact ⟨0, by simp [pyIndex, hx]⟩
    · have hmem : a ∈ xs := by
        rcases List.mem_cons.mp h with h1 | h1
        · exact absurd h1.symm hx
        · exact h1
      obtain ⟨i, hi⟩ := ih hmem
      exact ⟨i + 1, by simp [pyIndex, hx, hi]⟩

theorem pyIndex_get? {α : Type} [DecidableEq α] :
    ∀ {l : List α} {a : α} {i : Nat}, pyIndex l a = some i → l.get? i = some a := by
  intro l
  induction l with
  | nil => intro a i h; simp [pyIndex] at h
  | cons x xs ih =>
    intro a i h
    by_cases hx : x = a
    · simp [pyIndex, hx] at h
      subst h
      simp [hx]
    · simp only [pyIndex, if_neg hx, Option.map_eq_some'] at h
      obtain ⟨j, hj, rfl⟩ := h
      simpa using ih hj

theorem pyMax_isSome : ∀ {l : List ℚ}, l ≠ [] → ∃ m, pyMax l = some m := by
  intro l h
  cases l with
  | nil => exact absurd rfl h
  | cons x xs =>
    cases hx : pyMax xs with
    | none => exact ⟨x, by simp [pyMax, hx]⟩
    | some m => exact ⟨max x m, by simp [pyMax, hx]⟩

theorem pyMax_mem : ∀ {l : List ℚ} {m : ℚ}, pyMax l = some m → m ∈ l := by
  intro l
  induction l with
  | nil => intro m h; simp [pyMax] at h
  | cons x xs ih =>
    intro m h
    cases hx : pyMax xs with
    | none =>
      simp [pyMax, hx] at h
      simp [h]
    | some m2 =>
      simp [pyMax, hx] at h
      rcases max_choice x m2 with h1 | h1 <;> rw [← h] at *
      · simp [h1]
      · simp [h1, ih hx]

theorem pyMax_ne_none {x : ℚ} {xs : List ℚ} : pyMax (x :: xs) ≠ none := by
  cases hx : pyMax xs <;> simp [pyMax, hx]

theorem pyMax_ge : ∀ {l : List ℚ} {m : ℚ}, pyMax l = some m → ∀ x ∈ l, x ≤ m := by
  intro l
  induction l with
  | nil => intro m _ x hx; simp at hx
  | cons y ys ih =>
    intro m h x hx
    cases hy : pyMax ys with
    | none =>
      cases ys with
      | nil =>
        simp [pyMax] at h
        rw [List.mem_singleton] at hx
        subst hx
        exact le_of_eq h
      | cons z zs => exact absurd hy pyMax_ne_none
    | some m2 =>
      simp [pyMax, hy] at h
      rcases List.mem_cons.mp hx with h1 | h1
      · rw [← h, h1]
        exact le_max_left _ _
      · calc x ≤ m2 := ih hy x h1
          _ ≤ m := by rw [← h]; exact le_max_right _ _

theorem list_get?_lt {α : Type} : ∀ {l : List α} {i : Nat} {a : α},
    l.get? i = some a → i < l.length := by
  intro l
  induction l with
  | nil => intro i a h; simp at h
  | cons x xs ih =>
    intro i a h
    cases i with
    | zero => simp
    | succ j =>
      simp only [List.get?] at h
      have := ih h
      simp only [List.length_cons]
      omega

theorem list_get?_set_self {α : Type} : ∀ (l : List α) (i : Nat) (a : α),
    i < l.length → (l.set i a).get? i = some a := by
  intro l
  induction l with
  | nil => intro i a h; simp at h
  | cons x xs ih =>
    intro i a h
    cases i with
    | zero => rfl
    | succ j =>
      simp only [List.set]
      exact ih j a (by simpa using Nat.lt_of_succ_lt_succ h)

theorem list_get?_set_ne {α : Type} : ∀ (l : List α) (i j : Nat) (a : α),
    i ≠ j → (l.set i a).get? j = l.get? j := by
  intro l
  induction l with
  | nil => intro i j a _; simp
  | cons x xs ih =>
    intro i j a hne
    cases i with
    | zero =>
      cases j with
      | zero => exact absurd rfl hne
      | succ k => rfl
    | succ i2 =>
      cases j with
      | zero => rfl
      | succ k =>
        simp only [List.set, List.get?]
        exact ih i2 k a (by omega)

/-- Claim C1: for a household `h` checked with chain head `b`, the chain
    check returns `False` when `h` has no pending offer or is off the
    market; otherwise, for a mortgage or buy-to-let participant it returns
    `True` when the offer target's owner is absent, owns more than one
    house, equals `h`, or equals `b`, and otherwise returns the chain check
    of that owner with head `b`; for a rent participant it returns `True`
    when the target's occupier is absent or equals `b`, and otherwise
    returns the chain check of that occupier with head `b`.  (The recursive
    call spends one unit of fuel, mirroring one level of Python
    recursion.) -/
theorem C1_follow_chain_cases (s : ModelState) (fuel : Nat) (h b : PId) :
    ((s.households h).madeOfferOn = none ∨ (s.households h).onMarket = false →
      follow_chain s (fuel + 1) h b = some false)
    ∧ (∀ target, (s.households h).madeOfferOn = some target →
        (s.households h).onMarket = true →
        ((s.households h).onMarketType = some .mortgage ∨
         (s.households h).onMarketType = some .buyToLet) →
        ((s.houses target).myOwner = none → follow_chain s (fuel + 1) h b = some true)
        ∧ (∀ w, (s.houses target).myOwner = some w →
            ((1 < (s.households w).myOwnership.length ∨ w = h ∨ w = b) →
              follow_chain s (fuel + 1) h b = some true)
            ∧ (¬ (1 < (s.households w).myOwnership.length ∨ w = h ∨ w = b) →
              follow_chain s (fuel + 1) h b = follow_chain s fuel w b)))
    ∧ (∀ target, (s.households h).madeOfferOn = some target →
        (s.households h).onMarket = true →
        (s.households h).onMarketType = some .rent →
        ((s.houses target).myOccupier = none → follow_chain s (fuel + 1) h b = some true)
        ∧ (∀ w, (s.houses target).myOccupier = some w →
            (w = b → follow_chain s (fuel + 1) h b = some true)
            ∧ (w ≠ b → follow_chain s (fuel + 1) h b = follow_chain s fuel w b))) := by
  refine ⟨?_, ?_, ?_⟩
  · intro hf
    simp only [follow_chain]
    rw [if_pos hf]
  · intro target hoff hmkt hkind
    constructor
    · intro hown
      rcases hkind with hk | hk <;> simp [follow_chain, hoff, hmkt, hk, hown]
    · intro w hw
      constructor
      · intro hdisj
        rcases hdisj with h1 | h1 | h1
        · rcases hkind with hk | hk <;> simp [follow_chain, hoff, hmkt, hk, hw, h1]
        · subst h1
          rcases hkind with hk | hk <;> simp [follow_chain, hoff, hmkt, hk, hw]
        · subst h1
          rcases hkind with hk | hk <;>
          · simp only [follow_chain, hoff, hmkt, hk, hw]
            by_cases h2 : 1 < (s.households w).myOwnership.length <;>
              by_cases h3 : w = h <;> simp [h2, h3]
      · intro hne
        push_neg at hne
        obtain ⟨h1, h2, h3⟩ := hne
        have h1' : ¬ 1 < (s.households w).myOwnership.length := by omega
        rcases hkind with hk | hk <;>
          simp [follow_chain, hoff, hmkt, hk, hw, h1', h2, h3]
  · intro target hoff hmkt hkind
    constructor
    · intro hocc
      simp [follow_chain, hoff, hmkt, hkind, hocc]
    · intro w hw
      constructor
      · intro h1
        simp [follow_chain, hoff, hmkt, hkind, hw, h1]
      · intro h1
        simp [follow_chain, hoff, hmkt, hkind, hw, h1]

/-- Witness for C1 at a concrete state: household 0 has an offer on house
    5, is on the mortgage market, and the owner of house 5 owns two houses,
    so the chain check reports `True`. -/
theorem C1_follow_chain_cases_witness :
    (c1s.households 0).madeOfferOn = some 5 ∧ (c1s.households 0).onMarket = true ∧
    (c1s.households 0).onMarketType = some MarketKind.mortgage ∧
    (c1s.houses 5).myOwner = some 1 ∧ 1 < (c1s.households 1).myOwnership.length ∧
    follow_chain c1s 3 0 9 = some true :=
  ⟨rfl, rfl, rfl, rfl, by decide,
    (((C1_follow_chain_cases c1s 2 0 9).2.1 5 rfl rfl (Or.inl rfl)).2 1 rfl).1
      (Or.inl (by decide))⟩

/-- Claim C4 (code bug): the spec demands that, for every household, the
    ownership-portfolio length equal the length of each parallel per-house
    financial sequence, and that eviction clear them all.  `evict` on a
    mortgage-kind owner empties `my_ownership`, `mortgage`, `repayment`
    and `income_rent` (source lines 1113-1117) but leaves
    `mortgage_initial`, `mortgage_duration`, `rate` and `rate_duration`
    untouched, so an evicted one-house owner ends misaligned: portfolio
    length 0 against stale length-1 sequences. -/
theorem C4_evict_misalignment :
    (evict 2 c4s 0).map (fun s =>
      ((s.households 0).myOwnership.length,
       (s.households 0).mortgage.length,
       (s.households 0).repayment.length,
       (s.households 0).incomeRent.length,
       (s.households 0).mortgageInitial.length,
       (s.households 0).mortgageDuration.length,
       (s.households 0).rate.length,
       (s.households 0).rateDuration.length))
      = some (0, 0, 0, 0, 1, 1, 1, 1) := by rfl

/-- Claim C2 (counterexample): in the three-household rotating chain
    (each owns exactly the one house it occupies; 0 offers on house 1, 1
    on house 2, 2 on house 0) the settlement phase is not atomic.  After
    the phase, household 1 has completed only the sale half of its
    transaction: its capital moved from 200 to 250 and its portfolio and
    financial records were emptied, yet it never acquired house 2 (still
    owned by household 2) and its residence reference still points at
    house 1, now owned by household 0.  So an intermediate household is
    left with neither a completed transaction nor its prior state. -/
theorem C2_chain_settlement_counterexample :
    (settle_phase {} 10 c2s).map (fun s =>
      ((s.households 1).myHouse, (s.households 1).myOwnership, (s.households 1).capital,
       (s.households 1).onMarket, (s.households 1).madeOfferOn,
       (s.houses 1).myOwner, (s.houses 2).myOwner))
      = some (some 1, [], 250, true, some 2, some 0, some 2) ∧
    (c2s.households 1).myOwnership = [1] ∧ (c2s.households 1).capital = 200 := by
  refine ⟨?_, ?_, ?_⟩ <;> with_unfolding_all rfl

/-- Claim C2 (amended): in the three-household rotating chain only the
    first-iterated bidder settles — household 0 acquires house 1 and
    leaves the market; household 1 completes only the sale half (records
    emptied, residence dangling at the sold house) because household 0's
    settlement cleared the offer its chain check depends on; household
    2's record is entirely unchanged. -/
theorem C2_chain_settlement_amended :
    (settle_phase {} 10 c2s).map (fun s =>
      ((s.households 0).myHouse, (s.households 0).myOwnership, (s.households 0).onMarket,
       (s.households 0).madeOfferOn, (s.houses 1).myOwner, (s.houses 1).myOccupier,
       (s.houses 1).forSale, decide (s.households 2 = c2s.households 2),
       (s.households 1).myHouse, (s.households 1).myOwnership,
       (s.households 1).mortgage))
      = some (some 1, [1], false, none, some 0, some 0, false, true,
              some 1, [], []) := by with_unfolding_all rfl

/-- Claim C5 (code bug): a settled rent transaction leaves the rented
    house with its pending offerer still set while both listing flags are
    false — `manage_ownership_tenant` never clears `offered_to`, and
    `remove_offers` only visits houses still listed — contradicting the
    claimed invariant that a house with a pending offerer is listed (and
    the source's own comment at lines 976-977 that the market was cleared
    of offers). -/
theorem C5_rent_settlement_offerer_dangling :
    (settle_phase {} 5 c5s).map (fun s =>
      let s2 := remove_offers s
      ((s2.houses 0).offeredTo, (s2.houses 0).forSale, (s2.houses 0).forRent,
       (s2.houses 0).rentedTo, (s2.houses 0).myOccupier,
       (s2.households 1).myHouse, (s2.households 1).myRent))
      = some (some 1, false, false, some 1, some 1, some 0, 10) := by
  with_unfolding_all rfl

/-- Claim C6 (code bug): when the fixed-rate term is zero, the repayment
    positive and the locked rate differs from the prevailing rate, the
    recomputation references the input key `"ticke_per_year"` — a
    misspelling of `"ticks_per_year"` absent from the inputs dictionary —
    so the update raises `KeyError` (`none`) instead of producing the
    annuity repayment; with an unchanged rate the same update
    succeeds. -/
theorem C6_rate_reset_keyerror :
    update_owner_house (3 / 400) 2 1 0 c6o = none ∧
    (update_owner_house (1 / 100) 2 1 0 c6o).isSome = true := by
  refine ⟨?_, ?_⟩ <;> with_unfolding_all rfl

/-- Claim C7 (code bug): on a non-positive upper bound the source calls
    `leave_market(buyer)`, but `leave_market` is declared with a required
    second positional argument, so the call raises `TypeError` for every
    buy-to-let bidder and every mortgage bidder with a residence; a
    mortgage bidder without a residence takes neither call and stays on
    the market, also contrary to the claim. -/
theorem C7_leave_market_arity :
    make_offer_btl c7P (fun l => l) [5] c7s 1 =
      Except.error "TypeError: leave_market missing 1 required positional argument" ∧
    make_offer_mortgage c7P (fun l => l) [5] c7s 2 =
      Except.error "TypeError: leave_market missing 1 required positional argument" ∧
    make_offer_mortgage c7P (fun l => l) [5] c7s 0 = Except.ok c7s ∧
    (c7s.households 0).onMarket = true := by
  refine ⟨?_, ?_, ?_, ?_⟩ <;> with_unfolding_all rfl

/-- Claim C8 (counterexample): `manage_surplus_seller` credits
    `sale_price - outstanding_mortgage` without a clamp, so a seller in
    negative equity (house worth 50 against a 100 mortgage, capital 0)
    ends with capital -50 < 0, refuting "a household's capital never
    becomes negative". -/
theorem C8_seller_capital_negative :
    (manage_surplus_seller c8s 1 4).map (fun s => (s.households 1).capital) =
      some (-50) ∧ ((-50 : ℚ) < 0) := by
  refine ⟨by with_unfolding_all rfl, by norm_num⟩

/-- Claim C10 (counterexample): the pool bound is strict at the bottom.
    With upper bound 100 (so lower bound 70), a listed, unoffered,
    matching house priced exactly 70 = 0.7 x 100 is excluded from the
    candidate pool and no offer is recorded, although the claim's closed
    interval `[lower, upper]` includes it. -/
theorem C10_boundary_price_excluded :
    (c10s.houses 3).salePrice = 70 ∧ ((70 : ℚ) = (7 / 10) * 100) ∧
    upperbound_mortgage c10P c10s 0 = Except.ok 100 ∧
    interesting_houses_M c10s [3] 100 70 none [] = [] ∧
    make_offer_mortgage c10P (fun l => l) [3] c10s 0 = Except.ok c10s ∧
    (c10s.houses 3).offeredTo = none ∧ (c10s.households 0).madeOfferOn = none := by
  refine ⟨by rfl, by norm_num, by with_unfolding_all rfl, by with_unfolding_all rfl,
    by with_unfolding_all rfl, by rfl, by rfl⟩

@[simp] theorem evict_rent_result_ticks (s : ModelState) (t : PId) (h : HId) (ll : PId)
    (i : Nat) : (evict_rent_result s t h ll i).ticks = s.ticks := rfl

theorem evict_rent_result_houses_ne (s : ModelState) (t : PId) (h : HId) (ll : PId)
    (i : Nat) {h2 : HId} (hne : h2 ≠ h) :
    (evict_rent_result s t h ll i).houses h2 = s.houses h2 := by
  simp [evict_rent_result, setHouse_houses_ne _ _ _ hne]

theorem evict_rent_result_households_t (s : ModelState) (t : PId) (h : HId) (ll : PId)
    (i : Nat) (hta : t ≠ ll) :
    (evict_rent_result s t h ll i).households t =
      { s.households t with myHouse := none, myRent := 0, homeless := 0 } := by
  simp [evict_rent_result, setHousehold_households_ne _ _ _ hta]

theorem evict_rent_result_households_ll (s : ModelState) (t : PId) (h : HId) (ll : PId)
    (i : Nat) (hta : t ≠ ll) :
    (evict_rent_result s t h ll i).households ll =
      { s.households ll with incomeRent := (s.households ll).incomeRent.set i 0 } := by
  simp [evict_rent_result, setHousehold_households_ne _ _ _ hta.symm]

theorem evict_rent_result_households_ne (s : ModelState) (t : PId) (h : HId) (ll : PId)
    (i : Nat) {p : PId} (hpt : p ≠ t) (hpl : p ≠ ll) :
    (evict_rent_result s t h ll i).households p = s.households p := by
  simp [evict_rent_result, setHousehold_households_ne _ _ _ hpt,
    setHousehold_households_ne _ _ _ hpl]

theorem evict_rent_spec (s : ModelState) (t : PId) (h : HId) (ll : PId) (i : Nat)
    (h1 : (s.households t).myHouse = some h)
    (h2 : (s.houses h).myOwner = some ll)
    (h3 : pyIndex (s.households ll).myOwnership h = some i)
    (h4 : i < (s.households ll).incomeRent.length) :
    evict_rent s t = some (evict_rent_result s t h ll i) := by
  unfold evict_rent evict_rent_result
  rw [h1]
  simp only [setHouse_households, setHouse_houses_self, setHouse_ticks,
    put_on_market_myOwner]
  rw [h2]
  simp only [h3, if_pos h4]
  rfl

theorem evict_of_rent (fuel : Nat) (s : ModelState) (a : PId)
    (hty : (s.households a).myType = some HType.rent) :
    evict (fuel + 1) s a = evict_rent s a := by
  simp [evict, hty]

theorem evict_loop_step_spec
    (ev : ModelState → PId → Option ModelState) (a : PId) (h : HId) (t : PId)
    (i : Nat) (s : ModelState)
    (hty : (s.houses h).myType = some HType.rent)
    (hocc : (s.houses h).myOccupier = some t)
    (hev : ev s t = some (evict_rent_result s t h a i)) :
    evict_loop_step ev s h = some (cascade_step_result s t h a i) := by
  unfold evict_loop_step cascade_step_result
  rw [hty, hocc]
  simp only [if_pos rfl, hev, Option.bind, bind, pure]
  simp

theorem cascade_step_ticks (s : ModelState) (t : PId) (h : HId) (a : PId) (i : Nat) :
    (cascade_step_result s t h a i).ticks = s.ticks := by
  simp [cascade_step_result, enter_market]

theorem cascade_step_houses_h (s : ModelState) (t : PId) (h : HId) (a : PId) (i : Nat) :
    ((cascade_step_result s t h a i).houses h).forSale = true ∧
    ((cascade_step_result s t h a i).houses h).forRent = false ∧
    ((cascade_step_result s t h a i).houses h).dateForSale = s.ticks := by
  simp only [cascade_step_result]
  rw [setHouse_houses_self]
  rw [put_on_market_of_mortgage _ (by rw [setHouse_houses_self, put_on_market_myType])]
  refine ⟨rfl, rfl, ?_⟩
  simp [enter_market]

theorem cascade_step_houses_ne (s : ModelState) (t : PId) (h : HId) (a : PId) (i : Nat)
    {h2 : HId} (hne : h2 ≠ h) :
    (cascade_step_result s t h a i).houses h2 = s.houses h2 := by
  simp only [cascade_step_result]
  rw [setHouse_houses_ne _ _ _ hne, setHouse_houses_ne _ _ _ hne]
  simp only [enter_market, setHousehold_houses]
  exact evict_rent_result_houses_ne s t h a i hne

theorem cascade_step_households_t (s : ModelState) (t : PId) (h : HId) (a : PId)
    (i : Nat) (hta : t ≠ a) :
    (cascade_step_result s t h a i).households t =
      { s.households t with myHouse := none, myRent := 0, homeless := 0,
                            onMarket := true, onMarketType := some MarketKind.rent } := by
  simp only [cascade_step_result, setHouse_households, enter_market,
    setHousehold_households_self]
  rw [evict_rent_result_households_t s t h a i hta]

theorem cascade_step_households_a (s : ModelState) (t : PId) (h : HId) (a : PId)
    (i : Nat) (hta : t ≠ a) :
    (cascade_step_result s t h a i).households a =
      { s.households a with incomeRent := (s.households a).incomeRent.set i 0 } := by
  simp only [cascade_step_result, setHouse_households, enter_market]
  rw [setHousehold_households_ne _ _ _ (fun hx => hta hx.symm)]
  exact evict_rent_result_households_ll s t h a i hta

theorem cascade_step_households_ne (s : ModelState) (t : PId) (h : HId) (a : PId)
    (i : Nat) {p : PId} (hpt : p ≠ t) (hpa : p ≠ a) :
    (cascade_step_result s t h a i).households p = s.households p := by
  simp only [cascade_step_result, setHouse_households, enter_market]
  rw [setHousehold_households_ne _ _ _ hpt]
  exact evict_rent_result_households_ne s t h a i hpt hpa

theorem evict_loop_core_cons (ev : ModelState → PId → Option ModelState) (mh : HId)
    (s : ModelState) (h : HId) (rs : List HId) (hne : h ≠ mh) (st : ModelState)
    (hstep : evict_loop_step ev s h = some st) :
    evict_loop_core ev mh s (h :: rs) = evict_loop_core ev mh st rs := by
  simp [evict_loop_core, if_neg hne, hstep]

theorem evict_loop_core_skip (ev : ModelState → PId → Option ModelState) (mh : HId)
    (s : ModelState) (rs : List HId) :
    evict_loop_core ev mh s (mh :: rs) = evict_loop_core ev mh s rs := by
  simp [evict_loop_core]

theorem evict_loop_core_spec (a : PId) (mh : HId) (fuel : Nat) :
    ∀ (rs : List HId) (ts : List PId) (s : ModelState),
      rs.length = ts.length →
      rs.Nodup → ts.Nodup → mh ∉ rs → a ∉ ts →
      (∀ pr ∈ rs.zip ts,
        (s.houses pr.1).myType = some HType.rent ∧
        (s.houses pr.1).myOccupier = some pr.2 ∧
        (s.houses pr.1).myOwner = some a ∧
        (s.households pr.2).myType = some HType.rent ∧
        (s.households pr.2).myHouse = some pr.1) →
      (∀ h2 ∈ rs, h2 ∈ (s.households a).myOwnership) →
      ((s.households a).incomeRent.length = (s.households a).myOwnership.length) →
      ∃ s2, evict_loop_core (fun st p => evict (fuel + 1) st p) mh s rs = some s2 ∧
        s2.ticks = s.ticks ∧
        (∀ h2 ∈ rs, (s2.houses h2).forSale = true ∧ (s2.houses h2).forRent = false ∧
          (s2.houses h2).dateForSale = s.ticks) ∧
        (∀ h2, h2 ∉ rs → s2.houses h2 = s.houses h2) ∧
        (∀ t2 ∈ ts, (s2.households t2).myHouse = none ∧
          (s2.households t2).onMarket = true ∧
          (s2.households t2).onMarketType = some MarketKind.rent) ∧
        (∀ p, p ∉ ts → p ≠ a → s2.households p = s.households p) ∧
        (s2.households a).myOwnership = (s.households a).myOwnership ∧
        (s2.households a).incomeRent.length = (s.households a).incomeRent.length := by
  intro rs
  induction rs with
  | nil =>
    intro ts s hlen _ _ _ _ _ _ _
    refine ⟨s, rfl, rfl, ?_, ?_, ?_, ?_, rfl, rfl⟩
    · intro h2 hh2; simp at hh2
    · intro h2 _; rfl
    · intro t2 ht2
      cases ts with
      | nil => simp at ht2
      | cons x xs => simp at hlen
    · intro p _ _; rfl
  | cons h rs ih =>
    intro ts s hlen hnd hndt hmh hats hpre hmem hlenIR
    cases ts with
    | nil => simp at hlen
    | cons t ts =>
      have hhm : h ≠ mh := by rintro rfl; exact hmh (List.mem_cons_self _ _)
      have hta : t ≠ a := by rintro rfl; exact hats (List.mem_cons_self _ _)
      have hzhead : ((h, t) : HId × PId) ∈ (h :: rs).zip (t :: ts) := by
        rw [List.zip_cons_cons]; exact List.mem_cons_self _ _
      obtain ⟨hty, hocc, hown, htyt, hth⟩ := hpre (h, t) hzhead
      have hmemh : h ∈ (s.households a).myOwnership := hmem h (List.mem_cons_self _ _)
      obtain ⟨i, hi⟩ := pyIndex_mem hmemh
      have hil : i < (s.households a).incomeRent.length := by
        rw [hlenIR]; exact pyIndex_lt hi
      have hev : (fun st p => evict (fuel + 1) st p) s t =
          some (evict_rent_result s t h a i) := by
        show evict (fuel + 1) s t = _
        rw [evict_of_rent fuel s t htyt]
        exact evict_rent_spec s t h a i hth hown hi hil
      have hstep := evict_loop_step_spec (fun st p => evict (fuel + 1) st p) a h t i s
        hty hocc hev
      have hcons := evict_loop_core_cons (fun st p => evict (fuel + 1) st p) mh s h rs hhm
        (cascade_step_result s t h a i) hstep
      have h6ticks := cascade_step_ticks s t h a i
      have h6h := cascade_step_houses_h s t h a i
      have h6t := cascade_step_households_t s t h a i hta
      have h6a := cascade_step_households_a s t h a i hta
      have hhnotin : h ∉ rs := (List.nodup_cons.mp hnd).1
      have htnotin : t ∉ ts := (List.nodup_cons.mp hndt).1
      have hlen2 : rs.length = ts.length := by simpa using hlen
      have hpre6 : ∀ pr ∈ rs.zip ts,
          ((cascade_step_result s t h a i).houses pr.1).myType = some HType.rent ∧
          ((cascade_step_result s t h a i).houses pr.1).myOccupier = some pr.2 ∧
          ((cascade_step_result s t h a i).houses pr.1).myOwner = some a ∧
          ((cascade_step_result s t h a i).households pr.2).myType = some HType.rent ∧
          ((cascade_step_result s t h a i).households pr.2).myHouse = some pr.1 := by
        intro pr hpr
        obtain ⟨x, y⟩ := pr
        obtain ⟨hx, hy⟩ := List.of_mem_zip hpr
        have hxh : x ≠ h := by rintro rfl; exact hhnotin hx
        have hyt : y ≠ t := by rintro rfl; exact htnotin hy
        have hya : y ≠ a := by rintro rfl; exact hats (List.mem_cons_of_mem _ hy)
        have hbig : ((x, y) : HId × PId) ∈ (h :: rs).zip (t :: ts) := by
          rw [List.zip_cons_cons]; exact List.mem_cons_of_mem _ hpr
        have hp := hpre (x, y) hbig
        rw [cascade_step_houses_ne s t h a i hxh,
          cascade_step_households_ne s t h a i hyt hya]
        exact hp
      have hmem6 : ∀ h2 ∈ rs, h2 ∈ ((cascade_step_result s t h a i).households a).myOwnership := by
        intro h2 hh2
        rw [h6a]
        exact hmem h2 (List.mem_cons_of_mem _ hh2)
      have hir6 : ((cascade_step_result s t h a i).households a).incomeRent.length =
          ((cascade_step_result s t h a i).households a).myOwnership.length := by
        rw [h6a]
        simpa using hlenIR
      obtain ⟨s2, hrun, hticks2, hlist2, hframe2, hts2, hpframe2, hown2, hir2⟩ :=
        ih ts (cascade_step_result s t h a i) hlen2 (List.nodup_cons.mp hnd).2
          (List.nodup_cons.mp hndt).2 (fun hx => hmh (List.mem_cons_of_mem _ hx))
          (fun hx => hats (List.mem_cons_of_mem _ hx)) hpre6 hmem6 hir6
      refine ⟨s2, ?_, ?_, ?_, ?_, ?_, ?_, ?_, ?_⟩
      · rw [hcons]; exact hrun
      · rw [hticks2, h6ticks]
      · intro h2 hh2
        rcases List.mem_cons.mp hh2 with rfl | hh2t
        · rw [hframe2 h2 hhnotin]
          exact ⟨h6h.1, h6h.2.1, h6h.2.2⟩
        · obtain ⟨hq1, hq2, hq3⟩ := hlist2 h2 hh2t
          exact ⟨hq1, hq2, by rw [hq3, h6ticks]⟩
      · intro h2 hh2
        have hne : h2 ≠ h := by rintro rfl; exact hh2 (List.mem_cons_self _ _)
        have hnin : h2 ∉ rs := fun hx => hh2 (List.mem_cons_of_mem _ hx)
        rw [hframe2 h2 hnin, cascade_step_houses_ne s t h a i hne]
      · intro t2 ht2
        rcases List.mem_cons.mp ht2 with rfl | ht2t
        · rw [hpframe2 t2 htnotin hta, h6t]
          exact ⟨rfl, rfl, rfl⟩
        · exact hts2 t2 ht2t
      · intro p hp hpa
        have hpt : p ≠ t := by rintro rfl; exact hp (List.mem_cons_self _ _)
        have hpts : p ∉ ts := fun hx => hp (List.mem_cons_of_mem _ hx)
        rw [hpframe2 p hpts hpa, cascade_step_households_ne s t h a i hpt hpa]
      · rw [hown2, h6a]
      · rw [hir2, h6a]
        simp

/-- Claim C3: evicting a mortgage-kind owner-occupier owning its primary
    residence `mh` plus rent-type houses `rest`, each occupied by a
    distinct tenant (`ts`), relists exactly those `N = 1 + rest.length`
    houses this tick (and touches no other house), leaves the evicted
    owner with no residence, an empty ownership portfolio and a
    homelessness counter of zero, and leaves each displaced tenant without
    a residence and flagged as an active rent-market participant. -/
theorem C3_eviction_cascade
    (s : ModelState) (a : PId) (mh : HId) (rest : List HId) (ts : List PId) (fuel : Nat)
    (hlen : rest.length = ts.length)
    (hq : (s.households a).myType = some HType.mortgage)
    (hmy : (s.households a).myHouse = some mh)
    (hmht : (s.houses mh).myType = some HType.mortgage)
    (hown : (s.households a).myOwnership = mh :: rest)
    (hnodup : (mh :: rest).Nodup)
    (hndt : ts.Nodup)
    (hats : a ∉ ts)
    (hpre : ∀ pr ∈ rest.zip ts,
      (s.houses pr.1).myType = some HType.rent ∧
      (s.houses pr.1).myOccupier = some pr.2 ∧
      (s.houses pr.1).myOwner = some a ∧
      (s.households pr.2).myType = some HType.rent ∧
      (s.households pr.2).myHouse = some pr.1)
    (hir : (s.households a).incomeRent.length = (mh :: rest).length) :
    ∃ s2, evict (fuel + 2) s a = some s2 ∧
      (s2.households a).myHouse = none ∧
      (s2.households a).myOwnership = [] ∧
      (s2.households a).homeless = 0 ∧
      (∀ h ∈ mh :: rest, (s2.houses h).forSale = true ∧ (s2.houses h).forRent = false ∧
        (s2.houses h).dateForSale = s.ticks) ∧
      (∀ h, h ∉ mh :: rest → s2.houses h = s.houses h) ∧
      (∀ t ∈ ts, (s2.households t).myHouse = none ∧ (s2.households t).onMarket = true ∧
        (s2.households t).onMarketType = some MarketKind.rent) := by
  have hmhrest : mh ∉ rest := (List.nodup_cons.mp hnodup).1
  set s1 := setHouse s mh (put_on_market s.ticks
    { s.houses mh with myOccupier := none, myOwner := none, rentedTo := none }) with hs1
  have hpre1 : ∀ pr ∈ rest.zip ts,
      (s1.houses pr.1).myType = some HType.rent ∧
      (s1.houses pr.1).myOccupier = some pr.2 ∧
      (s1.houses pr.1).myOwner = some a ∧
      (s1.households pr.2).myType = some HType.rent ∧
      (s1.households pr.2).myHouse = some pr.1 := by
    intro pr hpr
    obtain ⟨x, y⟩ := pr
    obtain ⟨hx, _⟩ := List.of_mem_zip hpr
    have hxmh : x ≠ mh := by rintro rfl; exact hmhrest hx
    rw [hs1]
    simp only [setHouse_households, setHouse_houses_ne _ _ _ hxmh]
    exact hpre (x, y) hpr
  have hmem1 : ∀ h2 ∈ rest, h2 ∈ (s1.households a).myOwnership := by
    intro h2 hh2
    rw [hs1]
    simp only [setHouse_households]
    rw [hown]
    exact List.mem_cons_of_mem _ hh2
  have hir1 : (s1.households a).incomeRent.length = (s1.households a).myOwnership.length := by
    rw [hs1]
    simp only [setHouse_households]
    rw [hown, hir]
  obtain ⟨s2, hrun, hticks2, hlist2, hframe2, hts2, hpframe2, hown2, hir2⟩ :=
    evict_loop_core_spec a mh fuel rest ts s1 hlen (List.nodup_cons.mp hnodup).2 hndt
      hmhrest hats hpre1 hmem1 hir1
  have hticks1 : s1.ticks = s.ticks := by rw [hs1]; simp
  refine ⟨setHousehold s2 a
    { s2.households a with myHouse := none, myOwnership := [], mortgage := [],
                           repayment := [], incomeRent := [], myRent := 0,
                           homeless := 0 }, ?_, ?_, ?_, ?_, ?_, ?_, ?_⟩
  · show evict (fuel + 1 + 1) s a = _
    simp only [evict, hs1, setHouse_households] at hrun
    simp only [evict, hq, hmy, setHouse_households, hown]
    rw [evict_loop_core_skip, hrun]
    rfl
  · simp
  · simp
  · simp
  · intro h hh
    rcases List.mem_cons.mp hh with rfl | hht
    · have hmh2 : s2.houses h = s1.houses h := hframe2 h hmhrest
      rw [setHousehold_houses, hmh2, hs1, setHouse_houses_self]
      rw [put_on_market_of_mortgage _ (by simpa using hmht)]
      exact ⟨rfl, rfl, rfl⟩
    · obtain ⟨hq1, hq2, hq3⟩ := hlist2 h hht
      rw [setHousehold_houses]
      exact ⟨hq1, hq2, by rw [hq3, hticks1]⟩
  · intro h hh
    have hne : h ≠ mh := by rintro rfl; exact hh (List.mem_cons_self _ _)
    have hnin : h ∉ rest := fun hx => hh (List.mem_cons_of_mem _ hx)
    rw [setHousehold_houses, hframe2 h hnin, hs1, setHouse_houses_ne _ _ _ hne]
  · intro t ht
    have hta : t ≠ a := by rintro rfl; exact hats ht
    rw [setHousehold_households_ne _ _ _ hta]
    exact hts2 t ht

/-- Witness for C3 at the concrete two-house instance `c3ws`: owner 0
    with primary residence 0 and occupied rental 1 (tenant 1). -/
theorem C3_eviction_cascade_witness :
    ((c3ws.households 0).myType = some HType.mortgage ∧
     (c3ws.households 0).myHouse = some 0 ∧
     (c3ws.houses 0).myType = some HType.mortgage ∧
     (c3ws.households 0).myOwnership = 0 :: [1] ∧
     (0 :: [1] : List HId).Nodup ∧ ([1] : List PId).Nodup ∧ (0 : PId) ∉ [1] ∧
     (c3ws.households 0).incomeRent.length = (0 :: [1] : List HId).length) ∧
    (∃ s2, evict (0 + 2) c3ws 0 = some s2 ∧
      (s2.households 0).myHouse = none ∧
      (s2.households 0).myOwnership = [] ∧
      (s2.households 0).homeless = 0 ∧
      (∀ h ∈ (0 :: [1] : List HId), (s2.houses h).forSale = true ∧
        (s2.houses h).forRent = false ∧ (s2.houses h).dateForSale = c3ws.ticks) ∧
      (∀ h, h ∉ (0 :: [1] : List HId) → s2.houses h = c3ws.houses h) ∧
      (∀ t ∈ ([1] : List PId), (s2.households t).myHouse = none ∧
        (s2.households t).onMarket = true ∧
        (s2.households t).onMarketType = some MarketKind.rent)) :=
  ⟨⟨rfl, rfl, rfl, rfl, by decide, by decide, by decide, rfl⟩,
   C3_eviction_cascade c3ws 0 0 [1] [1] 0 rfl rfl rfl rfl rfl (by decide) (by decide)
     (by decide) (by decide) rfl⟩

set_option maxHeartbeats 3200000 in
/-- Claim C8 (amended): in the per-tick owner update, the updated per-house
    mortgage balance is never negative, and a balance that would go
    negative after subtracting its repayment is set to zero together with
    its repayment (which then stays zero, since the rate-reset branch
    requires a positive repayment).  The capital half of the original
    claim is refuted by `manage_surplus_seller` (see the counterexample
    theorem). -/
theorem C8_balance_clamp (itp : ℚ) (dM dBTL : Int) (i : Nat) (o o2 : Household)
    (m r : ℚ) (hm : o.mortgage.get? i = some m) (hr : o.repayment.get? i = some r)
    (hupd : update_owner_house itp dM dBTL i o = some o2) :
    (∃ m2, o2.mortgage.get? i = some m2 ∧ 0 ≤ m2) ∧
    (m - r ≤ 0 → o2.mortgage.get? i = some 0 ∧ o2.repayment.get? i = some 0) := by
  have hml : i < o.mortgage.length := list_get?_lt hm
  have hrl : i < o.repayment.length := list_get?_lt hr
  have hsav : get_input "savings" = some 20 := rfl
  have hmd25 : get_input "mortgage_duration" = some 25 := rfl
  have htk : get_input "ticke_per_year" = none := rfl
  have hmg : o.mortgage[i]? = some m := by simpa using hm
  have hrg : o.repayment[i]? = some r := by simpa using hr
  by_cases hc : m - r ≤ 0
  · -- the clamping branch
    have hc2 : m ≤ r := by linarith
    have hr0 : (o.repayment.set i (0 : ℚ)).get? i = some 0 :=
      list_get?_set_self _ _ _ hrl
    have hr0g : (o.repayment.set i (0 : ℚ))[i]? = some 0 := by simpa using hr0
    cases hrd : o.rateDuration[i]? with
    | none => simp [update_owner_house, hmg, hrg, hc2, hsav, hrd] at hupd
    | some rd =>
      simp [update_owner_house, hmg, hrg, hc2, hsav, hrd, hr0g] at hupd
      subst hupd
      have hset : ((o.mortgage.set i (m - r)).set i (0 : ℚ)).get? i = some 0 := by
        apply list_get?_set_self
        simpa using hml
      have hset0 : (o.mortgage.set i (0 : ℚ)).get? i = some 0 :=
        list_get?_set_self _ _ _ hml
      have hset0g : (o.mortgage.set i (0 : ℚ))[i]? = some 0 := by simpa using hset0
      refine ⟨⟨0, ?_, le_refl 0⟩, fun _ => ⟨?_, ?_⟩⟩ <;>
        simp [hset0g, hr0g]
  · -- no clamp: the updated balance is m - r > 0
    have hmr : (0 : ℚ) < m - r := lt_of_not_le hc
    have hc2 : ¬ m ≤ r := by
      intro hx
      exact hc (by linarith)
    have hset : (o.mortgage.set i (m - r)).get? i = some (m - r) :=
      list_get?_set_self _ _ _ hml
    cases hrd : o.rateDuration[i]? with
    | none => simp [update_owner_house, hmg, hrg, hc2, hsav, hrd] at hupd
    | some rd =>
      by_cases hcond : rd = some 0 ∧ 0 < r
      · obtain ⟨hrd0, hrpos⟩ := hcond
        cases hrt : o.rate[i]? with
        | none =>
          simp [update_owner_house, hmg, hrg, hc2, hsav, hrd, hrd0, hrpos, hrt] at hupd
        | some rt =>
          by_cases hne : rt = itp
          · have hrdl : i < o.rateDuration.length := by
              have := list_get?_lt (l := o.rateDuration) (i := i) (a := rd)
                (by simpa using hrd)
              exact this
            have hrdsM : (o.rateDuration.set i (some dM))[i]? = some (some dM) := by
              have := list_get?_set_self o.rateDuration i (some dM) hrdl
              simpa using this
            have hrdsB : (o.rateDuration.set i (some dBTL))[i]? = some (some dBTL) := by
              have := list_get?_set_self o.rateDuration i (some dBTL) hrdl
              simpa using this
            cases hmd : o.mortgageDuration[i]? with
            | none =>
              by_cases hi0 : i = 0
              · subst hi0
                simp [update_owner_house, hmg, hrg, hc2, hsav, hrd, hrd0, hrpos, hrt,
                  hne, hrdsM, hmd] at hupd
              · simp [update_owner_house, hmg, hrg, hc2, hsav, hrd, hrd0, hrpos, hrt,
                  hne, hi0, hrdsB, hmd] at hupd
            | some mdv =>
              by_cases hi0 : i = 0
              · subst hi0
                cases mdv <;>
                · simp [update_owner_house, hmg, hrg, hc2, hsav, hrd, hrd0, hrpos, hrt,
                    hne, hrdsM, hmd] at hupd
                  subst hupd
                  exact ⟨⟨m - r, by simpa using hset, le_of_lt hmr⟩,
                    fun hx => absurd hx hc⟩
              · cases mdv <;>
                · simp [update_owner_house, hmg, hrg, hc2, hsav, hrd, hrd0, hrpos, hrt,
                    hne, hi0, hrdsB, hmd] at hupd
                  subst hupd
                  exact ⟨⟨m - r, by simpa using hset, le_of_lt hmr⟩,
                    fun hx => absurd hx hc⟩
          · simp [update_owner_house, hmg, hrg, hc2, hsav, hrd, hrd0, hrpos, hrt, hne,
              hmd25, htk] at hupd
      · simp [update_owner_house, hmg, hrg, hc2, hsav, hrd, hcond] at hupd
        subst hupd
        exact ⟨⟨m - r, by simpa using hset, le_of_lt hmr⟩, fun hx => absurd hx hc⟩

/-- Witness for the C8 clamp theorem at the concrete owner `c8o`
    (balance 3, repayment 5): the update clamps both to zero. -/
theorem C8_balance_clamp_witness :
    (c8o.mortgage.get? 0 = some 3 ∧ c8o.repayment.get? 0 = some 5 ∧
     update_owner_house (1 / 100) 2 1 0 c8o = some c8o2) ∧
    ((∃ m2, c8o2.mortgage.get? 0 = some m2 ∧ 0 ≤ m2) ∧
     ((3 : ℚ) - 5 ≤ 0 → c8o2.mortgage.get? 0 = some 0 ∧
       c8o2.repayment.get? 0 = some 0)) :=
  ⟨⟨rfl, rfl, by with_unfolding_all rfl⟩,
   C8_balance_clamp (1 / 100) 2 1 0 c8o c8o2 3 5 rfl rfl
     (by with_unfolding_all rfl)⟩

theorem evaluate_candidates_sale (P : Params) (s : ModelState) (hid : HId)
    (hs : (s.houses hid).forSale = true) :
    evaluate P s hid =
      (s.houses hid).localRealtors.map (realtor_candidate_sale P s hid) := by
  simp only [evaluate, hs, if_true]
  apply List.map_congr_left
  intro r _
  simp only [realtor_candidate_sale]
  cases hL : (s.realtors r).records.filter (fun tr =>
      tr.transaction == TKind.sale && decide (P.dist hid tr.house ≤ P.locality)) with
  | nil => simp [hL]
  | cons a as => simp [hL]

theorem evaluate_candidates_rent (P : Params) (s : ModelState) (hid : HId)
    (hs : (s.houses hid).forSale = false) (hr : (s.houses hid).forRent = true) :
    evaluate P s hid =
      (s.houses hid).localRealtors.map (realtor_candidate_rent P s hid) := by
  simp only [evaluate, hs, hr, if_true, Bool.false_eq_true, if_false]
  apply List.map_congr_left
  intro r _
  simp only [realtor_candidate_rent]
  cases hL : (s.realtors r).records.filter (fun tr =>
      tr.transaction == TKind.rent && decide (P.dist hid tr.house ≤ P.locality)) with
  | nil => simp [hL]
  | cons a as => simp [hL]

/-- Claim C9: a newly listed house with at least one local realtor is
    priced at the maximum, over its local realtors, of the candidates the
    realtors produce, where a realtor's candidate is the median of its
    matching-kind records within the locality distance of the house,
    falling back to its territory-wide mean price (resp. mean rent). -/
theorem C9_new_listing_price (P : Params) (s : ModelState) (hid : HId)
    (hne : (s.houses hid).localRealtors ≠ []) :
    ((s.houses hid).forSale = true →
      ∃ v, value_new_listing P s hid = some v ∧
        (∃ r ∈ (s.houses hid).localRealtors, v = realtor_candidate_sale P s hid r) ∧
        ∀ r ∈ (s.houses hid).localRealtors, realtor_candidate_sale P s hid r ≤ v) ∧
    ((s.houses hid).forSale = false → (s.houses hid).forRent = true →
      ∃ v, value_new_listing P s hid = some v ∧
        (∃ r ∈ (s.houses hid).localRealtors, v = realtor_candidate_rent P s hid r) ∧
        ∀ r ∈ (s.houses hid).localRealtors, realtor_candidate_rent P s hid r ≤ v) := by
  constructor
  · intro hs
    have hev := evaluate_candidates_sale P s hid hs
    have hmapne : (s.houses hid).localRealtors.map (realtor_candidate_sale P s hid) ≠ [] := by
      simpa using hne
    obtain ⟨v, hv⟩ := pyMax_isSome (show evaluate P s hid ≠ [] by rw [hev]; exact hmapne)
    refine ⟨v, hv, ?_, ?_⟩
    · have hm := pyMax_mem hv
      rw [hev] at hm
      obtain ⟨r, hr, hrv⟩ := List.mem_map.mp hm
      exact ⟨r, hr, hrv.symm⟩
    · intro r hr
      exact pyMax_ge hv _ (by rw [hev]; exact List.mem_map_of_mem _ hr)
  · intro hs hr
    have hev := evaluate_candidates_rent P s hid hs hr
    have hmapne : (s.houses hid).localRealtors.map (realtor_candidate_rent P s hid) ≠ [] := by
      simpa using hne
    obtain ⟨v, hv⟩ := pyMax_isSome (show evaluate P s hid ≠ [] by rw [hev]; exact hmapne)
    refine ⟨v, hv, ?_, ?_⟩
    · have hm := pyMax_mem hv
      rw [hev] at hm
      obtain ⟨r2, hr2, hrv⟩ := List.mem_map.mp hm
      exact ⟨r2, hr2, hrv.symm⟩
    · intro r2 hr2
      exact pyMax_ge hv _ (by rw [hev]; exact List.mem_map_of_mem _ hr2)

/-- Witness for C9 at the concrete listing `c9s`/`c9P`: house 0 is newly
    for sale with one local realtor holding a far sale (100) and a near
    sale (200), so the asking price is the realtor's candidate. -/
theorem C9_new_listing_price_witness :
    ((c9s.houses 0).localRealtors ≠ [] ∧ (c9s.houses 0).forSale = true) ∧
    (∃ v, value_new_listing c9P c9s 0 = some v ∧
      (∃ r ∈ (c9s.houses 0).localRealtors, v = realtor_candidate_sale c9P c9s 0 r) ∧
      ∀ r ∈ (c9s.houses 0).localRealtors, realtor_candidate_sale c9P c9s 0 r ≤ v) :=
  ⟨⟨by decide, rfl⟩, (C9_new_listing_price c9P c9s 0 (by decide)).1 rfl⟩

/-- Claim C10 (amended): the candidate pool is exactly the unoffered
    listings of the bidder's kind priced in the half-open band
    `(0.7 x upper, upper]`, excluding the bidder's residence, with the
    portfolio exclusion only in the mortgage / buy-to-let branch; a
    non-empty pool yields a pending offer on the highest-priced member
    and the reciprocal reference on the bidder. -/
theorem C10_candidate_pool_selection :
    (∀ (s : ModelState) (housesForSale : List HId) (ub : ℚ) (cur : Option HId)
       (own : List HId) (h : HId),
      h ∈ interesting_houses_M s housesForSale ub (ub * (7 / 10)) cur own ↔
        h ∈ housesForSale ∧ (s.houses h).offeredTo = none ∧
        (s.houses h).salePrice ≤ ub ∧ ub * (7 / 10) < (s.houses h).salePrice ∧
        some h ≠ cur ∧ h ∉ own) ∧
    (∀ (s : ModelState) (housesForRent : List HId) (ub : ℚ) (cur : Option HId) (h : HId),
      h ∈ interesting_houses_R s housesForRent ub (ub * (7 / 10)) cur ↔
        h ∈ housesForRent ∧ (s.houses h).offeredTo = none ∧
        (s.houses h).rentPrice ≤ ub ∧ ub * (7 / 10) < (s.houses h).rentPrice ∧
        some h ≠ cur) ∧
    (∀ (price : HId → ℚ) (s : ModelState) (buyer : PId) (pool : List HId),
      pool ≠ [] →
      ∃ sel ∈ pool, (∀ h ∈ pool, price h ≤ price sel) ∧
        ((select_and_offer price s buyer pool).houses sel).offeredTo = some buyer ∧
        ((select_and_offer price s buyer pool).households buyer).madeOfferOn = some sel) := by
  refine ⟨?_, ?_, ?_⟩
  · intro s hsale ub cur own h
    simp [interesting_houses_M, List.mem_filter, and_assoc]
  · intro s hrent ub cur h
    simp [interesting_houses_R, List.mem_filter, and_assoc]
  · intro price s buyer pool hne
    have hlen : pool.length > 0 := List.length_pos.mpr hne
    have hpne : pool.map price ≠ [] := by simpa using hne
    obtain ⟨m, hm⟩ := pyMax_isSome hpne
    have hmem : m ∈ pool.map price := pyMax_mem hm
    obtain ⟨i, hi⟩ := pyIndex_mem hmem
    have hgi : (pool.map price).get? i = some m := pyIndex_get? hi
    rw [List.get?_map] at hgi
    cases hp : pool.get? i with
    | none => rw [hp] at hgi; simp at hgi
    | some sel =>
      rw [hp] at hgi
      simp at hgi
      have hpg : pool[i]? = some sel := by simpa using hp
      refine ⟨sel, List.get?_mem hp, fun h hh => ?_, ?_, ?_⟩
      · rw [hgi]
        exact pyMax_ge hm _ (List.mem_map_of_mem _ hh)
      · simp [select_and_offer, hlen, hm, hi, hpg]
      · simp [select_and_offer, hlen, hm, hi, hpg]

/-- Witness for the C10 selection property on the one-element pool `[3]`
    in state `c10s`: the single house receives the offer. -/
theorem C10_candidate_pool_selection_witness :
    (([3] : List HId) ≠ []) ∧
    ∃ sel ∈ ([3] : List HId),
      (∀ h ∈ ([3] : List HId),
        (c10s.houses h).salePrice ≤ (c10s.houses sel).salePrice) ∧
      ((select_and_offer (fun h => (c10s.houses h).salePrice) c10s 0 [3]).houses
        sel).offeredTo = some 0 ∧
      ((select_and_offer (fun h => (c10s.houses h).salePrice) c10s 0 [3]).households
        0).madeOfferOn = some sel :=
  ⟨by decide, C10_candidate_pool_selection.2.2
    (fun h => (c10s.houses h).salePrice) c10s 0 [3] (by decide)⟩
